import Mathlib

/-!
# go-iecp5 — verification of the ASDU codec and CS104 session core

A shallow embedding, in Lean 4, of the parts of the go-iecp5 repository
(an IEC 60870-5-104 telecontrol stack) that the specification's claims
talk about:

* the binary time codecs `CP56Time2a` / `CP24Time2a` / `CP16Time2a`
  (`asdu/time.go`),
* the ASDU header codec `MarshalBinary` / `UnmarshalBinary` /
  `fixInfoObjSize` (`asdu/asdu.go`),
* the non-destructive payload parser `ParseASDU` (`asdu/parse.go`),
* the payload encoder `EncodeMessage` (`asdu/encode_message.go`),
* the CS104 APCI frame codec `newIFrame` / `newSFrame` / `newUFrame` /
  `parse`, the client send path of `Client.run`, and `Config.Valid`
  (`cs104/apci.go`, the cs104 configuration file).

Modelling conventions:

* A Go `byte` is a `Nat` below 256; a Go `uint16` a `Nat` below 65536.
  Conversions that truncate in Go are written with explicit `% 256`
  (or `% 65536`).  Little-endian 16/32-bit reads become explicit sums.
* Go slices of bytes are `List Nat`.
* Fallible Go functions returning `(T, error)` become `Except PError T`
  (or `Except String T` where the source creates ad-hoc `errors.New`
  values whose identity matters).
* `float32` values are carried as their raw IEEE-754 bit patterns
  (`Nat` below 2^32): the source never computes with the float, it only
  moves the four bytes (`math.Float32frombits` / `math.Float32bits`),
  so the bit pattern is a faithful representation.
* `time.Time` values are wall-clock component records (`GoTime`) in the
  configured time zone.  The zone binding itself (`*time.Location`) is
  ambient: the source only ever threads it into `time.Date`/`t.In`,
  and every claim speaks about wall-clock values "expressed in the
  configured time zone".
* `time.Now()` — used by `ParseCP24Time2a` — is an input: functions that
  transitively read the current clock take an explicit `now : GoTime`.
-/

namespace GoIecp5

/-- Errors of the `asdu` package.  The source uses distinct package-level
`errors.New` values (`ErrParam`, `ErrCauseZero`, …), `io.EOF` for running
out of bytes, and two inline `errors.New` for bad variable structures. -/
inductive PError where
  | errParam
  | errCauseZero
  | errOriginAddrFit
  | errCommonAddrZero
  | errCommonAddrFit
  | errInfoObjAddrFit
  | errInfoObjIndexFit
  | errTypeIDNotMatch
  | errNotAnyObjInfo
  | eof
  | errVariableStruct (msg : String)
  | errEncodeUnsupported
  | errAsduTooLarge
  deriving DecidableEq, Repr

deriving instance DecidableEq for Except

/-- Go `byte(x)` applied to a non-negative integer quantity. -/
def byteOf (n : Nat) : Nat := n % 256

/-- Go `byte(x)` applied to a possibly negative `int` quantity: the low
eight bits of the two's-complement representation. -/
def byteOfInt (i : Int) : Nat := (i % 256).toNat

/-- A Go `time.Time` as wall-clock components in the configured zone.
`nsec` is the nanosecond-of-second. -/
structure GoTime where
  year : Nat
  month : Nat
  day : Nat
  hour : Nat
  minute : Nat
  sec : Nat
  nsec : Nat
  deriving DecidableEq, Repr

/-- The zero `time.Time{}`: January 1 of year 1, 00:00:00. -/
def zeroTime : GoTime := ⟨1, 1, 1, 0, 0, 0, 0⟩

/-- Two wall clocks agreeing on the calendar date and the hour — the
components `ParseCP24Time2a` reads from `time.Now()`. -/
def dateHourEq (n1 n2 : GoTime) : Prop :=
  n1.year = n2.year ∧ n1.month = n2.month ∧ n1.day = n2.day ∧ n1.hour = n2.hour

/-- Day count of a civil date relative to 1970-01-01 (Hinnant's
`days_from_civil`); embeds the day arithmetic of Go's `time` package. -/
def daysFromCivil (y m d : Int) : Int :=
  let y := if m ≤ 2 then y - 1 else y
  let era := (if 0 ≤ y then y else y - 399) / 400
  let yoe := y - era * 400
  let mp := (m + 9) % 12
  let doy := (153 * mp + 2) / 5 + d - 1
  let doe := yoe * 365 + yoe / 4 - yoe / 100 + doy
  era * 146097 + doe - 719468

/-- Go `t.Weekday()` (Sunday = 0): embeds the weekday computation of the
`time` package; 1970-01-01 is a Thursday (= 4). -/
def weekdayOf (t : GoTime) : Nat :=
  ((daysFromCivil t.year t.month t.day + 4) % 7).toNat

/-- Embeds Go `time.Date(year, month, day, hour, min, sec, nsec, loc)`
for wall-clock components.  Go normalizes out-of-range components
(e.g. second 65 or month 0); the claims below only ever compare two
`timeDate` applications with equal arguments or use in-range components,
for which `time.Date` is componentwise, so normalization is not
modelled. -/
def timeDate (year month day hour minute sec nsec : Nat) : GoTime :=
  ⟨year, month, day, hour, minute, sec, nsec⟩

/-- `asdu/time.go` `CP56Time2a`: the seven-octet binary time for `t`
(already expressed in the configured zone, mirroring `t.In(loc)`). -/
def CP56Time2a (t : GoTime) : List Nat :=
  let msec := t.nsec / 1000000 + t.sec * 1000
  [byteOf msec, byteOf (msec >>> 8), byteOf t.minute, byteOf t.hour,
   byteOf (weekdayOf t <<< 5) ||| byteOf t.day, byteOf t.month,
   byteOfInt ((t.year : Int) - 2000)]

/-- `asdu/time.go` `ParseCP56Time2a`: decode seven octets; an invalid
(IV) bit in the minute octet, or fewer than seven bytes, yields the zero
time. -/
def ParseCP56Time2a (bs : List Nat) : GoTime :=
  if bs.length < 7 ∨ bs.get! 2 &&& 0x80 = 0x80 then zeroTime
  else
    let x := bs.get! 0 + 256 * bs.get! 1
    let msec := x % 1000
    let sec := x / 1000
    let minute := bs.get! 2 &&& 0x3f
    let hour := bs.get! 3 &&& 0x1f
    let day := bs.get! 4 &&& 0x1f
    let month := bs.get! 5 &&& 0x0f
    let year := 2000 + (bs.get! 6 &&& 0x7f)
    timeDate year month day hour minute sec (msec * 1000000)

/-- `asdu/time.go` `CP24Time2a`: the three-octet binary time (the first
three octets of CP56). -/
def CP24Time2a (t : GoTime) : List Nat :=
  let msec := t.nsec / 1000000 + t.sec * 1000
  [byteOf msec, byteOf (msec >>> 8), byteOf t.minute]

/-- `asdu/time.go` `ParseCP24Time2a`: decode three octets; the date and
the hour are reconstructed from the current wall clock (`time.Now()`),
passed here explicitly as `now`. -/
def ParseCP24Time2a (bs : List Nat) (now : GoTime) : GoTime :=
  if bs.length < 3 ∨ bs.get! 2 &&& 0x80 = 0x80 then zeroTime
  else
    let x := bs.get! 0 + 256 * bs.get! 1
    let msec := x % 1000
    let sec := x / 1000
    let minute := bs.get! 2 &&& 0x3f
    timeDate now.year now.month now.day now.hour minute sec (msec * 1000000)

/-- `asdu/time.go` `CP16Time2a`: two-octet little-endian milliseconds. -/
def CP16Time2a (msec : Nat) : List Nat :=
  [byteOf msec, byteOf (msec >>> 8)]

/-- `asdu/time.go` `ParseCP16Time2a`. -/
def ParseCP16Time2a (bs : List Nat) : Nat :=
  bs.get! 0 + 256 * bs.get! 1

end GoIecp5

namespace GoIecp5

/-! ## ASDU data model (`asdu/asdu.go` and the identifier helpers)

The files defining `TypeID`, `VariableStruct`, `CauseOfTransmission` and
the package constants (`GlobalCommonAddr`, the cause values, the TypeID
numbers) are not part of the available sources; they are modelled from
the specification: §4.2 fixes the bit layout of the variable-structure
qualifier and of the cause octet, §3/§6 fix the broadcast common address
65535 and a cause value of 0 as "unused", and the concrete wire
scenarios fix the IEC TypeID numbering (`M_SP_NA_1 = 0x01`,
`C_IC_NA_1 = 0x64`) and the cause numbering (`Spontaneous = 0x03`,
`Activation = 0x06`). -/

/-- Modelled from the spec: IEC 60870-5-101 type identification numbers
(spec §4.3 families; scenarios 1 and 2 pin `M_SP_NA_1 = 0x01` and
`C_IC_NA_1 = 0x64`). -/
def M_SP_NA_1 : Nat := 1
def M_SP_TA_1 : Nat := 2
def M_DP_NA_1 : Nat := 3
def M_DP_TA_1 : Nat := 4
def M_ST_NA_1 : Nat := 5
def M_ST_TA_1 : Nat := 6
def M_BO_NA_1 : Nat := 7
def M_BO_TA_1 : Nat := 8
def M_ME_NA_1 : Nat := 9
def M_ME_TA_1 : Nat := 10
def M_ME_NB_1 : Nat := 11
def M_ME_TB_1 : Nat := 12
def M_ME_NC_1 : Nat := 13
def M_ME_TC_1 : Nat := 14
def M_IT_NA_1 : Nat := 15
def M_IT_TA_1 : Nat := 16
def M_EP_TA_1 : Nat := 17
def M_EP_TB_1 : Nat := 18
def M_EP_TC_1 : Nat := 19
def M_PS_NA_1 : Nat := 20
def M_ME_ND_1 : Nat := 21
def M_SP_TB_1 : Nat := 30
def M_DP_TB_1 : Nat := 31
def M_ST_TB_1 : Nat := 32
def M_BO_TB_1 : Nat := 33
def M_ME_TD_1 : Nat := 34
def M_ME_TE_1 : Nat := 35
def M_ME_TF_1 : Nat := 36
def M_IT_TB_1 : Nat := 37
def M_EP_TD_1 : Nat := 38
def M_EP_TE_1 : Nat := 39
def M_EP_TF_1 : Nat := 40
def C_SC_NA_1 : Nat := 45
def C_DC_NA_1 : Nat := 46
def C_RC_NA_1 : Nat := 47
def C_SE_NA_1 : Nat := 48
def C_SE_NB_1 : Nat := 49
def C_SE_NC_1 : Nat := 50
def C_BO_NA_1 : Nat := 51
def C_SC_TA_1 : Nat := 58
def C_DC_TA_1 : Nat := 59
def C_RC_TA_1 : Nat := 60
def C_SE_TA_1 : Nat := 61
def C_SE_TB_1 : Nat := 62
def C_SE_TC_1 : Nat := 63
def C_BO_TA_1 : Nat := 64
def M_EI_NA_1 : Nat := 70
def C_IC_NA_1 : Nat := 100
def C_CI_NA_1 : Nat := 101
def C_RD_NA_1 : Nat := 102
def C_CS_NA_1 : Nat := 103
def C_TS_NA_1 : Nat := 104
def C_RP_NA_1 : Nat := 105
def C_CD_NA_1 : Nat := 106
def C_TS_TA_1 : Nat := 107
def P_ME_NA_1 : Nat := 110
def P_ME_NB_1 : Nat := 111
def P_ME_NC_1 : Nat := 112
def P_AC_NA_1 : Nat := 113

/-- `asdu/asdu.go` cause-of-transmission value 0 ("unused"); modelled
from the spec ("sentinel common address unused = 0 … a cause value of 0
is rejected on encode"). -/
def Unused : Nat := 0
/-- Spontaneous cause (0x03; spec scenario 1). -/
def Spontaneous : Nat := 3
/-- Activation cause (0x06; spec scenario 2). -/
def Activation : Nat := 6

/-- Broadcast (global) common address; spec: "Broadcast common address =
65535". -/
def GlobalCommonAddr : Nat := 65535
/-- The unused common-address sentinel 0. -/
def InvalidCommonAddr : Nat := 0
/-- `asdu` `FBPTestWord` (0x55aa), the fixed test pattern of test
commands. -/
def FBPTestWord : Nat := 0x55aa

/-- `asdu.Params`: per-connection protocol parameters.  The time-zone
binding (`InfoObjTimeZone`) is ambient (see the module header). -/
structure Params where
  causeSize : Nat
  commonAddrSize : Nat
  infoObjAddrSize : Nat
  deriving DecidableEq, Repr

/-- `asdu.ParamsNarrow`: the smallest configuration. -/
def ParamsNarrow : Params := ⟨1, 1, 1⟩
/-- `asdu.ParamsWide`: the largest configuration. -/
def ParamsWide : Params := ⟨2, 2, 3⟩

/-- `Params.IdentifierSize`: `2 + CauseSize + CommonAddrSize`. -/
def Params.identifierSize (p : Params) : Nat :=
  2 + p.causeSize + p.commonAddrSize

/-- `asdu.VariableStruct`: the variable structure qualifier. -/
structure VariableStruct where
  isSequence : Bool
  number : Nat
  deriving DecidableEq, Repr

/-- Modelled from the spec (§4.2): the VSQ octet packs `is_sequence` in
bit 7 with `number` in bits 0..6 (`ParseVariableStruct`). -/
def ParseVariableStruct (b : Nat) : VariableStruct :=
  ⟨b &&& 0x80 = 0x80, b &&& 0x7f⟩

/-- Modelled from the spec (§4.2): `VariableStruct.Value()`, the inverse
packing of `ParseVariableStruct`. -/
def VariableStruct.value (v : VariableStruct) : Nat :=
  (if v.isSequence then 0x80 else 0) ||| (v.number &&& 0x7f)

/-- `asdu.CauseOfTransmission`. -/
structure CauseOfTransmission where
  cause : Nat
  isNegative : Bool
  isTest : Bool
  deriving DecidableEq, Repr

/-- Modelled from the spec (§4.2): the cause octet packs `cause` in bits
0..5, negative-confirm in bit 6 and test in bit 7
(`ParseCauseOfTransmission`). -/
def ParseCauseOfTransmission (b : Nat) : CauseOfTransmission :=
  ⟨b &&& 0x3f, b &&& 0x40 = 0x40, b &&& 0x80 = 0x80⟩

/-- Modelled from the spec (§4.2): `CauseOfTransmission.Value()`, the
inverse packing of `ParseCauseOfTransmission`. -/
def CauseOfTransmission.value (c : CauseOfTransmission) : Nat :=
  (c.cause &&& 0x3f) ||| (if c.isNegative then 0x40 else 0) |||
    (if c.isTest then 0x80 else 0)

/-- `asdu.Identifier`: the data unit identifier. -/
structure Identifier where
  type : Nat
  variable' : VariableStruct
  coa : CauseOfTransmission
  origAddr : Nat
  commonAddr : Nat
  deriving DecidableEq, Repr

/-- `asdu.ASDU`: parameters, identifier and the raw information-object
bytes (`infoObj`). -/
structure ASDU where
  params : Params
  identifier : Identifier
  infoObj : List Nat
  deriving DecidableEq, Repr

end GoIecp5

namespace GoIecp5

/-! ## Information-object element values (`asdu` info object definitions) -/

/-- `asdu.StepPosition`: value in [-64, 63] plus transient flag. -/
structure StepPosition where
  val : Int
  hasTransient : Bool
  deriving DecidableEq, Repr

/-- `ParseStepPosition`: bit 7 is the transient flag; bits 0..6 are the
value, sign-extended from bit 6 (`int(b) | (-1 &^ 0x3f)`). -/
def ParseStepPosition (b : Nat) : StepPosition :=
  { hasTransient := b &&& 0x80 ≠ 0,
    val := if b &&& 0x40 = 0 then ((b &&& 0x3f : Nat) : Int)
           else ((b &&& 0x3f : Nat) : Int) - 64 }

/-- `StepPosition.Value()`: `Val & 0x7f`, transient in bit 7.  For a Go
`int`, `x & 0x7f` is the low seven bits of the two's complement, i.e.
`x.emod 128`. -/
def StepPosition.value (s : StepPosition) : Nat :=
  (s.val % 128).toNat ||| (if s.hasTransient then 0x80 else 0)

/-- `asdu.BinaryCounterReading`. -/
structure BinaryCounterReading where
  counterReading : Nat
  seqNumber : Nat
  hasCarry : Bool
  isAdjusted : Bool
  isInvalid : Bool
  deriving DecidableEq, Repr

/-- `asdu.CauseOfInitial`. -/
structure CauseOfInitial where
  cause : Nat
  isLocalChange : Bool
  deriving DecidableEq, Repr

/-- `ParseCauseOfInitial`. -/
def ParseCauseOfInitial (b : Nat) : CauseOfInitial :=
  ⟨b &&& 0x7f, b &&& 0x80 = 0x80⟩

/-- `CauseOfInitial.Value()`. -/
def CauseOfInitial.value (c : CauseOfInitial) : Nat :=
  if c.isLocalChange then (c.cause ||| 0x80) % 256 else c.cause % 256

/-- `asdu.QualifierOfCommand` (QOC). -/
structure QualifierOfCommand where
  qual : Nat
  inSelect : Bool
  deriving DecidableEq, Repr

/-- `ParseQualifierOfCommand`: qual from bits 2..6, select from bit 7. -/
def ParseQualifierOfCommand (b : Nat) : QualifierOfCommand :=
  ⟨(b >>> 2) &&& 0x1f, b &&& 0x80 = 0x80⟩

/-- `QualifierOfCommand.Value()`. -/
def QualifierOfCommand.value (q : QualifierOfCommand) : Nat :=
  ((q.qual &&& 0x1f) <<< 2) ||| (if q.inSelect then 0x80 else 0)

/-- `asdu.QualifierOfSetpointCmd` (QOS). -/
structure QualifierOfSetpointCmd where
  qual : Nat
  inSelect : Bool
  deriving DecidableEq, Repr

/-- `ParseQualifierOfSetpointCmd`. -/
def ParseQualifierOfSetpointCmd (b : Nat) : QualifierOfSetpointCmd :=
  ⟨b &&& 0x7f, b &&& 0x80 = 0x80⟩

/-- `QualifierOfSetpointCmd.Value()`. -/
def QualifierOfSetpointCmd.value (q : QualifierOfSetpointCmd) : Nat :=
  (q.qual &&& 0x7f) ||| (if q.inSelect then 0x80 else 0)

/-- `asdu.QualifierCountCall` (QCC). -/
structure QualifierCountCall where
  request : Nat
  freeze : Nat
  deriving DecidableEq, Repr

/-- `ParseQualifierCountCall`. -/
def ParseQualifierCountCall (b : Nat) : QualifierCountCall :=
  ⟨b &&& 0x3f, b &&& 0xc0⟩

/-- `QualifierCountCall.Value()`. -/
def QualifierCountCall.value (q : QualifierCountCall) : Nat :=
  (q.request &&& 0x3f) ||| (q.freeze &&& 0xc0)

/-- `asdu.QualifierOfParameterMV` (QPM). -/
structure QualifierOfParameterMV where
  category : Nat
  isChange : Bool
  isInOperation : Bool
  deriving DecidableEq, Repr

/-- `ParseQualifierOfParamMV`. -/
def ParseQualifierOfParamMV (b : Nat) : QualifierOfParameterMV :=
  ⟨b &&& 0x3f, b &&& 0x40 = 0x40, b &&& 0x80 = 0x80⟩

/-- `QualifierOfParameterMV.Value()`. -/
def QualifierOfParameterMV.value (q : QualifierOfParameterMV) : Nat :=
  (q.category &&& 0x3f) ||| (if q.isChange then 0x40 else 0) |||
    (if q.isInOperation then 0x80 else 0)

/-! ## Parsed message items (`asdu/parse.go` info structs)

`Normalize` and scaled (`int16`) values are carried as their 16-bit wire
patterns, `float32` values as their 32-bit IEEE-754 patterns: the parser
and the encoder only ever move these bit patterns. -/

structure SinglePointInfo where
  ioa : Nat
  value : Bool
  qds : Nat
  time : GoTime
  deriving DecidableEq, Repr

structure DoublePointInfo where
  ioa : Nat
  value : Nat
  qds : Nat
  time : GoTime
  deriving DecidableEq, Repr

structure StepPositionInfo where
  ioa : Nat
  value : StepPosition
  qds : Nat
  time : GoTime
  deriving DecidableEq, Repr

structure BitString32Info where
  ioa : Nat
  value : Nat
  qds : Nat
  time : GoTime
  deriving DecidableEq, Repr

structure MeasuredValueNormalInfo where
  ioa : Nat
  value : Nat
  qds : Nat
  time : GoTime
  deriving DecidableEq, Repr

structure MeasuredValueScaledInfo where
  ioa : Nat
  value : Nat
  qds : Nat
  time : GoTime
  deriving DecidableEq, Repr

structure MeasuredValueFloatInfo where
  ioa : Nat
  value : Nat
  qds : Nat
  time : GoTime
  deriving DecidableEq, Repr

structure BinaryCounterReadingInfo where
  ioa : Nat
  value : BinaryCounterReading
  time : GoTime
  deriving DecidableEq, Repr

structure EventOfProtectionEquipmentInfo where
  ioa : Nat
  event : Nat
  qdp : Nat
  msec : Nat
  time : GoTime
  deriving DecidableEq, Repr

structure PackedStartEventsOfProtectionEquipmentInfo where
  ioa : Nat
  event : Nat
  qdp : Nat
  msec : Nat
  time : GoTime
  deriving DecidableEq, Repr

structure PackedOutputCircuitInfoInfo where
  ioa : Nat
  oci : Nat
  qdp : Nat
  msec : Nat
  time : GoTime
  deriving DecidableEq, Repr

structure PackedSinglePointWithSCDInfo where
  ioa : Nat
  scd : Nat
  qds : Nat
  deriving DecidableEq, Repr

structure SingleCommandInfo where
  ioa : Nat
  value : Bool
  qoc : QualifierOfCommand
  time : GoTime
  deriving DecidableEq, Repr

structure DoubleCommandInfo where
  ioa : Nat
  value : Nat
  qoc : QualifierOfCommand
  time : GoTime
  deriving DecidableEq, Repr

structure StepCommandInfo where
  ioa : Nat
  value : Nat
  qoc : QualifierOfCommand
  time : GoTime
  deriving DecidableEq, Repr

structure SetpointCommandNormalInfo where
  ioa : Nat
  value : Nat
  qos : QualifierOfSetpointCmd
  time : GoTime
  deriving DecidableEq, Repr

structure SetpointCommandScaledInfo where
  ioa : Nat
  value : Nat
  qos : QualifierOfSetpointCmd
  time : GoTime
  deriving DecidableEq, Repr

structure SetpointCommandFloatInfo where
  ioa : Nat
  value : Nat
  qos : QualifierOfSetpointCmd
  time : GoTime
  deriving DecidableEq, Repr

structure BitsString32CommandInfo where
  ioa : Nat
  value : Nat
  time : GoTime
  deriving DecidableEq, Repr

structure ParameterNormalInfo where
  ioa : Nat
  value : Nat
  qpm : QualifierOfParameterMV
  deriving DecidableEq, Repr

structure ParameterScaledInfo where
  ioa : Nat
  value : Nat
  qpm : QualifierOfParameterMV
  deriving DecidableEq, Repr

structure ParameterFloatInfo where
  ioa : Nat
  value : Nat
  qpm : QualifierOfParameterMV
  deriving DecidableEq, Repr

structure ParameterActivationInfo where
  ioa : Nat
  qpa : Nat
  deriving DecidableEq, Repr

/-- `asdu.Header` (`parse.go`): identification plus the raw payload the
message was parsed from (shared, not copied, with the source ASDU). -/
structure Header where
  params : Params
  identifier : Identifier
  rawInfoObj : List Nat
  deriving DecidableEq, Repr

/-- The `Header` that `ParseASDU` stores into every message it returns. -/
def headerOf (a : ASDU) : Header :=
  ⟨a.params, a.identifier, a.infoObj⟩

/-- The concrete message structs of `asdu/parse.go` (`UnknownMsg`,
`SinglePointMsg`, …) as one tagged union. -/
inductive Message where
  | unknown (h : Header)
  | singlePoint (h : Header) (items : List SinglePointInfo)
  | doublePoint (h : Header) (items : List DoublePointInfo)
  | stepPosition (h : Header) (items : List StepPositionInfo)
  | bitString32 (h : Header) (items : List BitString32Info)
  | measuredValueNormal (h : Header) (items : List MeasuredValueNormalInfo)
  | measuredValueScaled (h : Header) (items : List MeasuredValueScaledInfo)
  | measuredValueFloat (h : Header) (items : List MeasuredValueFloatInfo)
  | integratedTotals (h : Header) (items : List BinaryCounterReadingInfo)
  | eventOfProtection (h : Header) (items : List EventOfProtectionEquipmentInfo)
  | packedStartEvents (h : Header) (item : PackedStartEventsOfProtectionEquipmentInfo)
  | packedOutputCircuit (h : Header) (item : PackedOutputCircuitInfoInfo)
  | packedSinglePointWithSCD (h : Header) (items : List PackedSinglePointWithSCDInfo)
  | endOfInit (h : Header) (ioa : Nat) (coi : CauseOfInitial)
  | singleCommand (h : Header) (cmd : SingleCommandInfo)
  | doubleCommand (h : Header) (cmd : DoubleCommandInfo)
  | stepCommand (h : Header) (cmd : StepCommandInfo)
  | setpointNormal (h : Header) (cmd : SetpointCommandNormalInfo)
  | setpointScaled (h : Header) (cmd : SetpointCommandScaledInfo)
  | setpointFloat (h : Header) (cmd : SetpointCommandFloatInfo)
  | bitsString32Cmd (h : Header) (cmd : BitsString32CommandInfo)
  | parameterNormal (h : Header) (param : ParameterNormalInfo)
  | parameterScaled (h : Header) (param : ParameterScaledInfo)
  | parameterFloat (h : Header) (param : ParameterFloatInfo)
  | parameterActivation (h : Header) (param : ParameterActivationInfo)
  | interrogationCmd (h : Header) (ioa : Nat) (qoi : Nat)
  | counterInterrogationCmd (h : Header) (ioa : Nat) (qcc : QualifierCountCall)
  | readCmd (h : Header) (ioa : Nat)
  | clockSyncCmd (h : Header) (ioa : Nat) (time : GoTime)
  | testCmd (h : Header) (ioa : Nat) (test : Bool)
  | resetProcessCmd (h : Header) (ioa : Nat) (qrp : Nat)
  | delayAcquireCmd (h : Header) (ioa : Nat) (msec : Nat)
  | testCmdCP56 (h : Header) (ioa : Nat) (test : Bool) (time : GoTime)
  deriving DecidableEq, Repr

/-- The `Header()` method shared by every message struct. -/
def Message.header : Message → Header
  | .unknown h => h
  | .singlePoint h _ => h
  | .doublePoint h _ => h
  | .stepPosition h _ => h
  | .bitString32 h _ => h
  | .measuredValueNormal h _ => h
  | .measuredValueScaled h _ => h
  | .measuredValueFloat h _ => h
  | .integratedTotals h _ => h
  | .eventOfProtection h _ => h
  | .packedStartEvents h _ => h
  | .packedOutputCircuit h _ => h
  | .packedSinglePointWithSCD h _ => h
  | .endOfInit h _ _ => h
  | .singleCommand h _ => h
  | .doubleCommand h _ => h
  | .stepCommand h _ => h
  | .setpointNormal h _ => h
  | .setpointScaled h _ => h
  | .setpointFloat h _ => h
  | .bitsString32Cmd h _ => h
  | .parameterNormal h _ => h
  | .parameterScaled h _ => h
  | .parameterFloat h _ => h
  | .parameterActivation h _ => h
  | .interrogationCmd h _ _ => h
  | .counterInterrogationCmd h _ _ => h
  | .readCmd h _ => h
  | .clockSyncCmd h _ _ => h
  | .testCmd h _ _ => h
  | .resetProcessCmd h _ _ => h
  | .delayAcquireCmd h _ _ => h
  | .testCmdCP56 h _ _ _ => h

/-- A Go interface value of type `asdu.Message`: the concrete variant
together with whether the interface holds a pointer to it.  In the
source every method of every message struct has a pointer receiver, so
only pointer types implement `Message`: `ParseASDU` returns values with
`isPtr = true` on every branch (`&SinglePointMsg{…}` and friends). -/
structure GoMessage where
  isPtr : Bool
  msg : Message
  deriving DecidableEq, Repr

end GoIecp5

namespace GoIecp5

/-! ## The read-only decode cursor (`asdu/parse.go` `decodeCursor`)

The cursor holds the information-object byte slice and an offset; every
read either fails with `io.EOF` or returns the bytes and the advanced
cursor.  No operation ever writes to `data`. -/

structure DecodeCursor where
  data : List Nat
  off : Nat
  deriving DecidableEq, Repr

namespace DecodeCursor

/-- `decodeCursor.remaining`. -/
def remaining (d : DecodeCursor) : Nat := d.data.length - d.off

/-- `decodeCursor.read`. -/
def read (d : DecodeCursor) (n : Nat) : Except PError (List Nat × DecodeCursor) :=
  if d.remaining < n then .error .eof
  else .ok ((d.data.drop d.off).take n, { d with off := d.off + n })

/-- `decodeCursor.readByte`. -/
def readByte (d : DecodeCursor) : Except PError (Nat × DecodeCursor) :=
  match d.read 1 with
  | .error e => .error e
  | .ok (b, d') => .ok (b.get! 0, d')

/-- `decodeCursor.readUint16` (little-endian). -/
def readUint16 (d : DecodeCursor) : Except PError (Nat × DecodeCursor) :=
  match d.read 2 with
  | .error e => .error e
  | .ok (b, d') => .ok (b.get! 0 + 256 * b.get! 1, d')

/-- `decodeCursor.readInfoObjAddr`: little-endian of 1, 2 or 3 octets
according to `params.InfoObjAddrSize`. -/
def readInfoObjAddr (p : Params) (d : DecodeCursor) :
    Except PError (Nat × DecodeCursor) :=
  if p.infoObjAddrSize = 1 then
    match d.read 1 with
    | .error e => .error e
    | .ok (b, d') => .ok (b.get! 0, d')
  else if p.infoObjAddrSize = 2 then
    match d.read 2 with
    | .error e => .error e
    | .ok (b, d') => .ok (b.get! 0 + (b.get! 1 <<< 8), d')
  else if p.infoObjAddrSize = 3 then
    match d.read 3 with
    | .error e => .error e
    | .ok (b, d') => .ok (b.get! 0 + (b.get! 1 <<< 8) + (b.get! 2 <<< 16), d')
  else .error .errParam

/-- `decodeCursor.readNormalize` (the 16-bit pattern). -/
def readNormalize (d : DecodeCursor) : Except PError (Nat × DecodeCursor) :=
  d.readUint16

/-- `decodeCursor.readScaled` (the 16-bit pattern of the `int16`). -/
def readScaled (d : DecodeCursor) : Except PError (Nat × DecodeCursor) :=
  d.readUint16

/-- `decodeCursor.readFloat32` (the 32-bit IEEE-754 pattern). -/
def readFloat32 (d : DecodeCursor) : Except PError (Nat × DecodeCursor) :=
  match d.read 4 with
  | .error e => .error e
  | .ok (b, d') =>
    .ok (b.get! 0 + 256 * b.get! 1 + 65536 * b.get! 2 + 16777216 * b.get! 3, d')

/-- `decodeCursor.readBinaryCounterReading`: 32-bit counter then the
flag byte (5-bit sequence number plus carry/adjusted/invalid). -/
def readBinaryCounterReading (d : DecodeCursor) :
    Except PError (BinaryCounterReading × DecodeCursor) :=
  match d.read 5 with
  | .error e => .error e
  | .ok (b, d') =>
    let v := b.get! 0 + 256 * b.get! 1 + 65536 * b.get! 2 + 16777216 * b.get! 3
    let flags := b.get! 4
    .ok ({ counterReading := v,
           seqNumber := flags &&& 0x1f,
           hasCarry := flags &&& 0x20 = 0x20,
           isAdjusted := flags &&& 0x40 = 0x40,
           isInvalid := flags &&& 0x80 = 0x80 }, d')

/-- `decodeCursor.readBitsString32`. -/
def readBitsString32 (d : DecodeCursor) : Except PError (Nat × DecodeCursor) :=
  match d.read 4 with
  | .error e => .error e
  | .ok (b, d') =>
    .ok (b.get! 0 + 256 * b.get! 1 + 65536 * b.get! 2 + 16777216 * b.get! 3, d')

/-- `decodeCursor.readCP24Time2a`; `now` is the wall clock read by
`ParseCP24Time2a`. -/
def readCP24Time2a (now : GoTime) (d : DecodeCursor) :
    Except PError (GoTime × DecodeCursor) :=
  match d.read 3 with
  | .error e => .error e
  | .ok (b, d') => .ok (ParseCP24Time2a b now, d')

/-- `decodeCursor.readCP56Time2a`. -/
def readCP56Time2a (d : DecodeCursor) : Except PError (GoTime × DecodeCursor) :=
  match d.read 7 with
  | .error e => .error e
  | .ok (b, d') => .ok (ParseCP56Time2a b, d')

/-- `decodeCursor.readCP16Time2a`. -/
def readCP16Time2a (d : DecodeCursor) : Except PError (Nat × DecodeCursor) :=
  match d.read 2 with
  | .error e => .error e
  | .ok (b, d') => .ok (ParseCP16Time2a b, d')

/-- `decodeCursor.readStatusAndStatusChangeDetection`. -/
def readSCD (d : DecodeCursor) : Except PError (Nat × DecodeCursor) :=
  match d.read 4 with
  | .error e => .error e
  | .ok (b, d') =>
    .ok (b.get! 0 + 256 * b.get! 1 + 65536 * b.get! 2 + 16777216 * b.get! 3, d')

end DecodeCursor

end GoIecp5

namespace GoIecp5

open DecodeCursor

/-! ## `ParseASDU` (`asdu/parse.go`)

One recursive function per message family mirrors the family's item
loop.  The loop state is the remaining count, the `once` flag and the
running information-object address (`if !IsSequence || !once { once =
true; ioa = read } else { ioa++ }`). -/

/-- The per-item address step shared by every item loop of `ParseASDU`. -/
def nextIoa (p : Params) (isSeq once : Bool) (ioa : Nat) (cur : DecodeCursor) :
    Except PError (Nat × DecodeCursor) :=
  if !isSeq || !once then readInfoObjAddr p cur else .ok (ioa + 1, cur)

/-- The item loop of the `M_SP_NA_1, M_SP_TA_1, M_SP_TB_1` case. -/
def parseSinglePointItems (p : Params) (t : Nat) (isSeq : Bool) (now : GoTime) :
    Nat → Bool → Nat → DecodeCursor →
      Except PError (List SinglePointInfo × DecodeCursor)
  | 0, _, _, cur => .ok ([], cur)
  | n + 1, once, ioa0, cur =>
    match nextIoa p isSeq once ioa0 cur with
    | .error e => .error e
    | .ok (ioa, cur) =>
      match cur.readByte with
      | .error e => .error e
      | .ok (value, cur) =>
        match (if t == M_SP_NA_1 then .ok (zeroTime, cur)
               else if t == M_SP_TA_1 then cur.readCP24Time2a now
               else if t == M_SP_TB_1 then cur.readCP56Time2a
               else .error .errTypeIDNotMatch) with
        | .error e => .error e
        | .ok (tm, cur) =>
          match parseSinglePointItems p t isSeq now n true ioa cur with
          | .error e => .error e
          | .ok (items, cur) =>
            .ok ({ ioa := ioa, value := value &&& 0x01 = 0x01,
                   qds := value &&& 0xf0, time := tm } :: items, cur)

/-- The item loop of the `M_DP_NA_1, M_DP_TA_1, M_DP_TB_1` case. -/
def parseDoublePointItems (p : Params) (t : Nat) (isSeq : Bool) (now : GoTime) :
    Nat → Bool → Nat → DecodeCursor →
      Except PError (List DoublePointInfo × DecodeCursor)
  | 0, _, _, cur => .ok ([], cur)
  | n + 1, once, ioa0, cur =>
    match nextIoa p isSeq once ioa0 cur with
    | .error e => .error e
    | .ok (ioa, cur) =>
      match cur.readByte with
      | .error e => .error e
      | .ok (value, cur) =>
        match (if t == M_DP_NA_1 then .ok (zeroTime, cur)
               else if t == M_DP_TA_1 then cur.readCP24Time2a now
               else if t == M_DP_TB_1 then cur.readCP56Time2a
               else .error .errTypeIDNotMatch) with
        | .error e => .error e
        | .ok (tm, cur) =>
          match parseDoublePointItems p t isSeq now n true ioa cur with
          | .error e => .error e
          | .ok (items, cur) =>
            .ok ({ ioa := ioa, value := value &&& 0x03,
                   qds := value &&& 0xf0, time := tm } :: items, cur)

/-- The item loop of the `M_ST_NA_1, M_ST_TA_1, M_ST_TB_1` case. -/
def parseStepPositionItems (p : Params) (t : Nat) (isSeq : Bool) (now : GoTime) :
    Nat → Bool → Nat → DecodeCursor →
      Except PError (List StepPositionInfo × DecodeCursor)
  | 0, _, _, cur => .ok ([], cur)
  | n + 1, once, ioa0, cur =>
    match nextIoa p isSeq once ioa0 cur with
    | .error e => .error e
    | .ok (ioa, cur) =>
      match cur.readByte with
      | .error e => .error e
      | .ok (raw, cur) =>
        match cur.readByte with
        | .error e => .error e
        | .ok (qdsRaw, cur) =>
          match (if t == M_ST_NA_1 then .ok (zeroTime, cur)
                 else if t == M_ST_TA_1 then cur.readCP24Time2a now
                 else if t == M_ST_TB_1 then cur.readCP56Time2a
                 else .error .errTypeIDNotMatch) with
          | .error e => .error e
          | .ok (tm, cur) =>
            match parseStepPositionItems p t isSeq now n true ioa cur with
            | .error e => .error e
            | .ok (items, cur) =>
              .ok ({ ioa := ioa, value := ParseStepPosition raw,
                     qds := qdsRaw, time := tm } :: items, cur)

/-- The item loop of the `M_BO_NA_1, M_BO_TA_1, M_BO_TB_1` case. -/
def parseBitString32Items (p : Params) (t : Nat) (isSeq : Bool) (now : GoTime) :
    Nat → Bool → Nat → DecodeCursor →
      Except PError (List BitString32Info × DecodeCursor)
  | 0, _, _, cur => .ok ([], cur)
  | n + 1, once, ioa0, cur =>
    match nextIoa p isSeq once ioa0 cur with
    | .error e => .error e
    | .ok (ioa, cur) =>
      match cur.readBitsString32 with
      | .error e => .error e
      | .ok (val, cur) =>
        match cur.readByte with
        | .error e => .error e
        | .ok (qdsRaw, cur) =>
          match (if t == M_BO_NA_1 then .ok (zeroTime, cur)
                 else if t == M_BO_TA_1 then cur.readCP24Time2a now
                 else if t == M_BO_TB_1 then cur.readCP56Time2a
                 else .error .errTypeIDNotMatch) with
          | .error e => .error e
          | .ok (tm, cur) =>
            match parseBitString32Items p t isSeq now n true ioa cur with
            | .error e => .error e
            | .ok (items, cur) =>
              .ok ({ ioa := ioa, value := val, qds := qdsRaw, time := tm }
                     :: items, cur)

/-- The item loop of the `M_ME_NA_1, M_ME_TA_1, M_ME_TD_1, M_ME_ND_1`
case: the quality octet is read for all but `M_ME_ND_1`, and the time
tag only for the TA/TD variants. -/
def parseMeasuredValueNormalItems (p : Params) (t : Nat) (isSeq : Bool)
    (now : GoTime) :
    Nat → Bool → Nat → DecodeCursor →
      Except PError (List MeasuredValueNormalInfo × DecodeCursor)
  | 0, _, _, cur => .ok ([], cur)
  | n + 1, once, ioa0, cur =>
    match nextIoa p isSeq once ioa0 cur with
    | .error e => .error e
    | .ok (ioa, cur) =>
      match cur.readNormalize with
      | .error e => .error e
      | .ok (val, cur) =>
        match ((if t == M_ME_NA_1 then
                 match cur.readByte with
                 | .error e => .error e
                 | .ok (b, cur) => .ok (b, zeroTime, cur)
               else if t == M_ME_TA_1 then
                 match cur.readByte with
                 | .error e => .error e
                 | .ok (b, cur) =>
                   match cur.readCP24Time2a now with
                   | .error e => .error e
                   | .ok (tm, cur) => .ok (b, tm, cur)
               else if t == M_ME_TD_1 then
                 match cur.readByte with
                 | .error e => .error e
                 | .ok (b, cur) =>
                   match cur.readCP56Time2a with
                   | .error e => .error e
                   | .ok (tm, cur) => .ok (b, tm, cur)
               else if t == M_ME_ND_1 then .ok (0, zeroTime, cur)
               else .error .errTypeIDNotMatch :
                 Except PError (Nat × GoTime × DecodeCursor))) with
        | .error e => .error e
        | .ok (qds, tm, cur) =>
          match parseMeasuredValueNormalItems p t isSeq now n true ioa cur with
          | .error e => .error e
          | .ok (items, cur) =>
            .ok ({ ioa := ioa, value := val, qds := qds, time := tm }
                   :: items, cur)

/-- The item loop of the `M_ME_NB_1, M_ME_TB_1, M_ME_TE_1` case. -/
def parseMeasuredValueScaledItems (p : Params) (t : Nat) (isSeq : Bool)
    (now : GoTime) :
    Nat → Bool → Nat → DecodeCursor →
      Except PError (List MeasuredValueScaledInfo × DecodeCursor)
  | 0, _, _, cur => .ok ([], cur)
  | n + 1, once, ioa0, cur =>
    match nextIoa p isSeq once ioa0 cur with
    | .error e => .error e
    | .ok (ioa, cur) =>
      match cur.readScaled with
      | .error e => .error e
      | .ok (val, cur) =>
        match cur.readByte with
        | .error e => .error e
        | .ok (qdsRaw, cur) =>
          match (if t == M_ME_NB_1 then .ok (zeroTime, cur)
                 else if t == M_ME_TB_1 then cur.readCP24Time2a now
                 else if t == M_ME_TE_1 then cur.readCP56Time2a
                 else .error .errTypeIDNotMatch) with
          | .error e => .error e
          | .ok (tm, cur) =>
            match parseMeasuredValueScaledItems p t isSeq now n true ioa cur with
            | .error e => .error e
            | .ok (items, cur) =>
              .ok ({ ioa := ioa, value := val, qds := qdsRaw, time := tm }
                     :: items, cur)

/-- The item loop of the `M_ME_NC_1, M_ME_TC_1, M_ME_TF_1` case; the
quality octet is masked with `0xf1`. -/
def parseMeasuredValueFloatItems (p : Params) (t : Nat) (isSeq : Bool)
    (now : GoTime) :
    Nat → Bool → Nat → DecodeCursor →
      Except PError (List MeasuredValueFloatInfo × DecodeCursor)
  | 0, _, _, cur => .ok ([], cur)
  | n + 1, once, ioa0, cur =>
    match nextIoa p isSeq once ioa0 cur with
    | .error e => .error e
    | .ok (ioa, cur) =>
      match cur.readFloat32 with
      | .error e => .error e
      | .ok (val, cur) =>
        match cur.readByte with
        | .error e => .error e
        | .ok (qua, cur) =>
          match (if t == M_ME_NC_1 then .ok (zeroTime, cur)
                 else if t == M_ME_TC_1 then cur.readCP24Time2a now
                 else if t == M_ME_TF_1 then cur.readCP56Time2a
                 else .error .errTypeIDNotMatch) with
          | .error e => .error e
          | .ok (tm, cur) =>
            match parseMeasuredValueFloatItems p t isSeq now n true ioa cur with
            | .error e => .error e
            | .ok (items, cur) =>
              .ok ({ ioa := ioa, value := val, qds := qua &&& 0xf1, time := tm }
                     :: items, cur)

/-- The item loop of the `M_IT_NA_1, M_IT_TA_1, M_IT_TB_1` case. -/
def parseIntegratedTotalsItems (p : Params) (t : Nat) (isSeq : Bool)
    (now : GoTime) :
    Nat → Bool → Nat → DecodeCursor →
      Except PError (List BinaryCounterReadingInfo × DecodeCursor)
  | 0, _, _, cur => .ok ([], cur)
  | n + 1, once, ioa0, cur =>
    match nextIoa p isSeq once ioa0 cur with
    | .error e => .error e
    | .ok (ioa, cur) =>
      match cur.readBinaryCounterReading with
      | .error e => .error e
      | .ok (val, cur) =>
        match (if t == M_IT_NA_1 then .ok (zeroTime, cur)
               else if t == M_IT_TA_1 then cur.readCP24Time2a now
               else if t == M_IT_TB_1 then cur.readCP56Time2a
               else .error .errTypeIDNotMatch) with
        | .error e => .error e
        | .ok (tm, cur) =>
          match parseIntegratedTotalsItems p t isSeq now n true ioa cur with
          | .error e => .error e
          | .ok (items, cur) =>
            .ok ({ ioa := ioa, value := val, time := tm } :: items, cur)

/-- The item loop of the `M_EP_TA_1, M_EP_TD_1` case: the event octet
(`Event` bits 0..1, `Qdp` mask `0xf1`), a CP16 relative time, then the
CP24/CP56 tag. -/
def parseEventOfProtectionItems (p : Params) (t : Nat) (isSeq : Bool)
    (now : GoTime) :
    Nat → Bool → Nat → DecodeCursor →
      Except PError (List EventOfProtectionEquipmentInfo × DecodeCursor)
  | 0, _, _, cur => .ok ([], cur)
  | n + 1, once, ioa0, cur =>
    match nextIoa p isSeq once ioa0 cur with
    | .error e => .error e
    | .ok (ioa, cur) =>
      match cur.readByte with
      | .error e => .error e
      | .ok (value, cur) =>
        match cur.readCP16Time2a with
        | .error e => .error e
        | .ok (msec, cur) =>
          match (if t == M_EP_TA_1 then cur.readCP24Time2a now
                 else if t == M_EP_TD_1 then cur.readCP56Time2a
                 else .error .errTypeIDNotMatch) with
          | .error e => .error e
          | .ok (tm, cur) =>
            match parseEventOfProtectionItems p t isSeq now n true ioa cur with
            | .error e => .error e
            | .ok (items, cur) =>
              .ok ({ ioa := ioa, event := value &&& 0x03,
                     qdp := value &&& 0xf1, msec := msec, time := tm }
                     :: items, cur)

/-- The item loop of the `M_PS_NA_1` case. -/
def parsePackedSinglePointItems (p : Params) (isSeq : Bool) :
    Nat → Bool → Nat → DecodeCursor →
      Except PError (List PackedSinglePointWithSCDInfo × DecodeCursor)
  | 0, _, _, cur => .ok ([], cur)
  | n + 1, once, ioa0, cur =>
    match nextIoa p isSeq once ioa0 cur with
    | .error e => .error e
    | .ok (ioa, cur) =>
      match cur.readSCD with
      | .error e => .error e
      | .ok (scd, cur) =>
        match cur.readByte with
        | .error e => .error e
        | .ok (qdsRaw, cur) =>
          match parsePackedSinglePointItems p isSeq n true ioa cur with
          | .error e => .error e
          | .ok (items, cur) =>
            .ok ({ ioa := ioa, scd := scd, qds := qdsRaw } :: items, cur)

end GoIecp5

namespace GoIecp5

open DecodeCursor

/-- The single-object read chain of the `M_EP_TB_1, M_EP_TE_1` case
(address, event octet, quality octet masked `0xf1`, CP16 relative time,
CP24/CP56 tag). -/
def parsePackedStartEventsItem (p : Params) (t : Nat) (now : GoTime)
    (cur : DecodeCursor) :
    Except PError PackedStartEventsOfProtectionEquipmentInfo :=
  match readInfoObjAddr p cur with
  | .error e => .error e
  | .ok (ioa, cur) =>
    match cur.readByte with
    | .error e => .error e
    | .ok (event, cur) =>
      match cur.readByte with
      | .error e => .error e
      | .ok (qdpRaw, cur) =>
        match cur.readCP16Time2a with
        | .error e => .error e
        | .ok (msec, cur) =>
          match (if t == M_EP_TB_1 then cur.readCP24Time2a now
                 else if t == M_EP_TE_1 then cur.readCP56Time2a
                 else .error .errTypeIDNotMatch) with
          | .error e => .error e
          | .ok (tm, _) =>
            .ok { ioa := ioa, event := event, qdp := qdpRaw &&& 0xf1,
                  msec := msec, time := tm }

/-- The single-object read chain of the `M_EP_TC_1, M_EP_TF_1` case. -/
def parsePackedOutputCircuitItem (p : Params) (t : Nat) (now : GoTime)
    (cur : DecodeCursor) : Except PError PackedOutputCircuitInfoInfo :=
  match readInfoObjAddr p cur with
  | .error e => .error e
  | .ok (ioa, cur) =>
    match cur.readByte with
    | .error e => .error e
    | .ok (oci, cur) =>
      match cur.readByte with
      | .error e => .error e
      | .ok (qdpRaw, cur) =>
        match cur.readCP16Time2a with
        | .error e => .error e
        | .ok (msec, cur) =>
          match (if t == M_EP_TC_1 then cur.readCP24Time2a now
                 else if t == M_EP_TF_1 then cur.readCP56Time2a
                 else .error .errTypeIDNotMatch) with
          | .error e => .error e
          | .ok (tm, _) =>
            .ok { ioa := ioa, oci := oci, qdp := qdpRaw &&& 0xf1,
                  msec := msec, time := tm }

/-- The TypeIDs handled by a case of `ParseASDU`'s switch, in the
switch's order; any other TypeID falls through to the `UnknownMsg`
return. -/
def supportedTypeID (t : Nat) : Bool :=
  (t == M_SP_NA_1 || t == M_SP_TA_1 || t == M_SP_TB_1) ||
  (t == M_DP_NA_1 || t == M_DP_TA_1 || t == M_DP_TB_1) ||
  (t == M_ST_NA_1 || t == M_ST_TA_1 || t == M_ST_TB_1) ||
  (t == M_BO_NA_1 || t == M_BO_TA_1 || t == M_BO_TB_1) ||
  (t == M_ME_NA_1 || t == M_ME_TA_1 || t == M_ME_TD_1 || t == M_ME_ND_1) ||
  (t == M_ME_NB_1 || t == M_ME_TB_1 || t == M_ME_TE_1) ||
  (t == M_ME_NC_1 || t == M_ME_TC_1 || t == M_ME_TF_1) ||
  (t == M_IT_NA_1 || t == M_IT_TA_1 || t == M_IT_TB_1) ||
  (t == M_EP_TA_1 || t == M_EP_TD_1) ||
  (t == M_EP_TB_1 || t == M_EP_TE_1) ||
  (t == M_EP_TC_1 || t == M_EP_TF_1) ||
  (t == M_PS_NA_1) ||
  (t == M_EI_NA_1) ||
  (t == C_SC_NA_1 || t == C_SC_TA_1) ||
  (t == C_DC_NA_1 || t == C_DC_TA_1) ||
  (t == C_RC_NA_1 || t == C_RC_TA_1) ||
  (t == C_SE_NA_1 || t == C_SE_TA_1) ||
  (t == C_SE_NB_1 || t == C_SE_TB_1) ||
  (t == C_SE_NC_1 || t == C_SE_TC_1) ||
  (t == C_BO_NA_1 || t == C_BO_TA_1) ||
  (t == C_IC_NA_1) ||
  (t == C_CI_NA_1) ||
  (t == C_RD_NA_1) ||
  (t == C_CS_NA_1) ||
  (t == C_TS_NA_1) ||
  (t == C_RP_NA_1) ||
  (t == C_CD_NA_1) ||
  (t == C_TS_TA_1) ||
  (t == P_ME_NA_1) ||
  (t == P_ME_NB_1) ||
  (t == P_ME_NC_1) ||
  (t == P_AC_NA_1)

/-- The body of `ParseASDU` after its locals are bound: `t` is the
ASDU's TypeID, `vs` its variable-structure qualifier, `header` the
shared header and `cur` the fresh cursor over the ASDU buffer (the
source binds these as locals; they are parameters here so the dispatch
is a plain if-chain). -/
def parseDispatch (a : ASDU) (now : GoTime) (t : Nat) (vs : VariableStruct)
    (header : Header) (cur : DecodeCursor) : Except PError GoMessage :=
  if t == M_SP_NA_1 || t == M_SP_TA_1 || t == M_SP_TB_1 then
    match parseSinglePointItems a.params t vs.isSequence now vs.number false 0 cur with
    | .error e => .error e
    | .ok (items, _) => .ok ⟨true, .singlePoint header items⟩
  else if t == M_DP_NA_1 || t == M_DP_TA_1 || t == M_DP_TB_1 then
    match parseDoublePointItems a.params t vs.isSequence now vs.number false 0 cur with
    | .error e => .error e
    | .ok (items, _) => .ok ⟨true, .doublePoint header items⟩
  else if t == M_ST_NA_1 || t == M_ST_TA_1 || t == M_ST_TB_1 then
    match parseStepPositionItems a.params t vs.isSequence now vs.number false 0 cur with
    | .error e => .error e
    | .ok (items, _) => .ok ⟨true, .stepPosition header items⟩
  else if t == M_BO_NA_1 || t == M_BO_TA_1 || t == M_BO_TB_1 then
    match parseBitString32Items a.params t vs.isSequence now vs.number false 0 cur with
    | .error e => .error e
    | .ok (items, _) => .ok ⟨true, .bitString32 header items⟩
  else if t == M_ME_NA_1 || t == M_ME_TA_1 || t == M_ME_TD_1 || t == M_ME_ND_1 then
    match parseMeasuredValueNormalItems a.params t vs.isSequence now vs.number false 0 cur with
    | .error e => .error e
    | .ok (items, _) => .ok ⟨true, .measuredValueNormal header items⟩
  else if t == M_ME_NB_1 || t == M_ME_TB_1 || t == M_ME_TE_1 then
    match parseMeasuredValueScaledItems a.params t vs.isSequence now vs.number false 0 cur with
    | .error e => .error e
    | .ok (items, _) => .ok ⟨true, .measuredValueScaled header items⟩
  else if t == M_ME_NC_1 || t == M_ME_TC_1 || t == M_ME_TF_1 then
    match parseMeasuredValueFloatItems a.params t vs.isSequence now vs.number false 0 cur with
    | .error e => .error e
    | .ok (items, _) => .ok ⟨true, .measuredValueFloat header items⟩
  else if t == M_IT_NA_1 || t == M_IT_TA_1 || t == M_IT_TB_1 then
    match parseIntegratedTotalsItems a.params t vs.isSequence now vs.number false 0 cur with
    | .error e => .error e
    | .ok (items, _) => .ok ⟨true, .integratedTotals header items⟩
  else if t == M_EP_TA_1 || t == M_EP_TD_1 then
    match parseEventOfProtectionItems a.params t vs.isSequence now vs.number false 0 cur with
    | .error e => .error e
    | .ok (items, _) => .ok ⟨true, .eventOfProtection header items⟩
  else if t == M_EP_TB_1 || t == M_EP_TE_1 then
    if vs.isSequence || vs.number ≠ 1 then
      .error (.errVariableStruct "unexpected variable structure for packed start events")
    else
      match parsePackedStartEventsItem a.params t now cur with
      | .error e => .error e
      | .ok item => .ok ⟨true, .packedStartEvents header item⟩
  else if t == M_EP_TC_1 || t == M_EP_TF_1 then
    if vs.isSequence || vs.number ≠ 1 then
      .error (.errVariableStruct "unexpected variable structure for packed output circuit info")
    else
      match parsePackedOutputCircuitItem a.params t now cur with
      | .error e => .error e
      | .ok item => .ok ⟨true, .packedOutputCircuit header item⟩
  else if t == M_PS_NA_1 then
    match parsePackedSinglePointItems a.params vs.isSequence vs.number false 0 cur with
    | .error e => .error e
    | .ok (items, _) => .ok ⟨true, .packedSinglePointWithSCD header items⟩
  else if t == M_EI_NA_1 then
    match readInfoObjAddr a.params cur with
    | .error e => .error e
    | .ok (ioa, cur) =>
      match cur.readByte with
      | .error e => .error e
      | .ok (b, _) => .ok ⟨true, .endOfInit header ioa (ParseCauseOfInitial b)⟩
  else if t == C_SC_NA_1 || t == C_SC_TA_1 then
    match readInfoObjAddr a.params cur with
    | .error e => .error e
    | .ok (ioa, cur) =>
      match cur.readByte with
      | .error e => .error e
      | .ok (val, cur) =>
        match (if t == C_SC_TA_1 then cur.readCP56Time2a
               else .ok (zeroTime, cur)) with
        | .error e => .error e
        | .ok (tm, _) =>
          .ok ⟨true, .singleCommand header
            { ioa := ioa, value := val &&& 0x01 = 0x01,
              qoc := ParseQualifierOfCommand (val &&& 0xfe), time := tm }⟩
  else if t == C_DC_NA_1 || t == C_DC_TA_1 then
    match readInfoObjAddr a.params cur with
    | .error e => .error e
    | .ok (ioa, cur) =>
      match cur.readByte with
      | .error e => .error e
      | .ok (val, cur) =>
        match (if t == C_DC_TA_1 then cur.readCP56Time2a
               else .ok (zeroTime, cur)) with
        | .error e => .error e
        | .ok (tm, _) =>
          .ok ⟨true, .doubleCommand header
            { ioa := ioa, value := val &&& 0x03,
              qoc := ParseQualifierOfCommand (val &&& 0xfc), time := tm }⟩
  else if t == C_RC_NA_1 || t == C_RC_TA_1 then
    match readInfoObjAddr a.params cur with
    | .error e => .error e
    | .ok (ioa, cur) =>
      match cur.readByte with
      | .error e => .error e
      | .ok (val, cur) =>
        match (if t == C_RC_TA_1 then cur.readCP56Time2a
               else .ok (zeroTime, cur)) with
        | .error e => .error e
        | .ok (tm, _) =>
          .ok ⟨true, .stepCommand header
            { ioa := ioa, value := val &&& 0x03,
              qoc := ParseQualifierOfCommand (val &&& 0xfc), time := tm }⟩
  else if t == C_SE_NA_1 || t == C_SE_TA_1 then
    match readInfoObjAddr a.params cur with
    | .error e => .error e
    | .ok (ioa, cur) =>
      match cur.readNormalize with
      | .error e => .error e
      | .ok (val, cur) =>
        match cur.readByte with
        | .error e => .error e
        | .ok (qosRaw, cur) =>
          match (if t == C_SE_TA_1 then cur.readCP56Time2a
                 else .ok (zeroTime, cur)) with
          | .error e => .error e
          | .ok (tm, _) =>
            .ok ⟨true, .setpointNormal header
              { ioa := ioa, value := val,
                qos := ParseQualifierOfSetpointCmd qosRaw, time := tm }⟩
  else if t == C_SE_NB_1 || t == C_SE_TB_1 then
    match readInfoObjAddr a.params cur with
    | .error e => .error e
    | .ok (ioa, cur) =>
      match cur.readScaled with
      | .error e => .error e
      | .ok (val, cur) =>
        match cur.readByte with
        | .error e => .error e
        | .ok (qosRaw, cur) =>
          match (if t == C_SE_TB_1 then cur.readCP56Time2a
                 else .ok (zeroTime, cur)) with
          | .error e => .error e
          | .ok (tm, _) =>
            .ok ⟨true, .setpointScaled header
              { ioa := ioa, value := val,
                qos := ParseQualifierOfSetpointCmd qosRaw, time := tm }⟩
  else if t == C_SE_NC_1 || t == C_SE_TC_1 then
    match readInfoObjAddr a.params cur with
    | .error e => .error e
    | .ok (ioa, cur) =>
      match cur.readFloat32 with
      | .error e => .error e
      | .ok (val, cur) =>
        match cur.readByte with
        | .error e => .error e
        | .ok (qosRaw, cur) =>
          match (if t == C_SE_TC_1 then cur.readCP56Time2a
                 else .ok (zeroTime, cur)) with
          | .error e => .error e
          | .ok (tm, _) =>
            .ok ⟨true, .setpointFloat header
              { ioa := ioa, value := val,
                qos := ParseQualifierOfSetpointCmd qosRaw, time := tm }⟩
  else if t == C_BO_NA_1 || t == C_BO_TA_1 then
    match readInfoObjAddr a.params cur with
    | .error e => .error e
    | .ok (ioa, cur) =>
      match cur.readBitsString32 with
      | .error e => .error e
      | .ok (val, cur) =>
        match (if t == C_BO_TA_1 then cur.readCP56Time2a
               else .ok (zeroTime, cur)) with
        | .error e => .error e
        | .ok (tm, _) =>
          .ok ⟨true, .bitsString32Cmd header
            { ioa := ioa, value := val, time := tm }⟩
  else if t == C_IC_NA_1 then
    match readInfoObjAddr a.params cur with
    | .error e => .error e
    | .ok (ioa, cur) =>
      match cur.readByte with
      | .error e => .error e
      | .ok (b, _) => .ok ⟨true, .interrogationCmd header ioa b⟩
  else if t == C_CI_NA_1 then
    match readInfoObjAddr a.params cur with
    | .error e => .error e
    | .ok (ioa, cur) =>
      match cur.readByte with
      | .error e => .error e
      | .ok (b, _) =>
        .ok ⟨true, .counterInterrogationCmd header ioa (ParseQualifierCountCall b)⟩
  else if t == C_RD_NA_1 then
    match readInfoObjAddr a.params cur with
    | .error e => .error e
    | .ok (ioa, _) => .ok ⟨true, .readCmd header ioa⟩
  else if t == C_CS_NA_1 then
    match readInfoObjAddr a.params cur with
    | .error e => .error e
    | .ok (ioa, cur) =>
      match cur.readCP56Time2a with
      | .error e => .error e
      | .ok (tm, _) => .ok ⟨true, .clockSyncCmd header ioa tm⟩
  else if t == C_TS_NA_1 then
    match readInfoObjAddr a.params cur with
    | .error e => .error e
    | .ok (ioa, cur) =>
      match cur.readUint16 with
      | .error e => .error e
      | .ok (v, _) => .ok ⟨true, .testCmd header ioa (v == FBPTestWord)⟩
  else if t == C_RP_NA_1 then
    match readInfoObjAddr a.params cur with
    | .error e => .error e
    | .ok (ioa, cur) =>
      match cur.readByte with
      | .error e => .error e
      | .ok (b, _) => .ok ⟨true, .resetProcessCmd header ioa b⟩
  else if t == C_CD_NA_1 then
    match readInfoObjAddr a.params cur with
    | .error e => .error e
    | .ok (ioa, cur) =>
      match cur.readUint16 with
      | .error e => .error e
      | .ok (msec, _) => .ok ⟨true, .delayAcquireCmd header ioa msec⟩
  else if t == C_TS_TA_1 then
    match readInfoObjAddr a.params cur with
    | .error e => .error e
    | .ok (ioa, cur) =>
      match cur.readUint16 with
      | .error e => .error e
      | .ok (v, cur) =>
        match cur.readCP56Time2a with
        | .error e => .error e
        | .ok (tm, _) =>
          .ok ⟨true, .testCmdCP56 header ioa (v == FBPTestWord) tm⟩
  else if t == P_ME_NA_1 then
    match readInfoObjAddr a.params cur with
    | .error e => .error e
    | .ok (ioa, cur) =>
      match cur.readNormalize with
      | .error e => .error e
      | .ok (val, cur) =>
        match cur.readByte with
        | .error e => .error e
        | .ok (qpmRaw, _) =>
          .ok ⟨true, .parameterNormal header
            { ioa := ioa, value := val, qpm := ParseQualifierOfParamMV qpmRaw }⟩
  else if t == P_ME_NB_1 then
    match readInfoObjAddr a.params cur with
    | .error e => .error e
    | .ok (ioa, cur) =>
      match cur.readScaled with
      | .error e => .error e
      | .ok (val, cur) =>
        match cur.readByte with
        | .error e => .error e
        | .ok (qpmRaw, _) =>
          .ok ⟨true, .parameterScaled header
            { ioa := ioa, value := val, qpm := ParseQualifierOfParamMV qpmRaw }⟩
  else if t == P_ME_NC_1 then
    match readInfoObjAddr a.params cur with
    | .error e => .error e
    | .ok (ioa, cur) =>
      match cur.readFloat32 with
      | .error e => .error e
      | .ok (val, cur) =>
        match cur.readByte with
        | .error e => .error e
        | .ok (qpmRaw, _) =>
          .ok ⟨true, .parameterFloat header
            { ioa := ioa, value := val, qpm := ParseQualifierOfParamMV qpmRaw }⟩
  else if t == P_AC_NA_1 then
    match readInfoObjAddr a.params cur with
    | .error e => .error e
    | .ok (ioa, cur) =>
      match cur.readByte with
      | .error e => .error e
      | .ok (qpaRaw, _) =>
        .ok ⟨true, .parameterActivation header { ioa := ioa, qpa := qpaRaw }⟩
  else
    .ok ⟨true, .unknown header⟩

/-- `asdu.ParseASDU`: decode an ASDU into a typed message without
mutating the ASDU buffer.  Every branch returns a pointer value
(`isPtr = true`): only pointer types implement `asdu.Message`.  `now` is
the wall clock observed by the CP24 time decodes. -/
def ParseASDU (a : ASDU) (now : GoTime) : Except PError GoMessage :=
  parseDispatch a now a.identifier.type a.identifier.variable' (headerOf a)
    ⟨a.infoObj, 0⟩

end GoIecp5

namespace GoIecp5

/-! ## Append helpers (`asdu/codec.go`) and `EncodeMessage`
(`asdu/encode_message.go`) -/

namespace ASDU

/-- `ASDU.appendBytes`. -/
def appendBytes (a : ASDU) (bs : List Nat) : ASDU :=
  { a with infoObj := a.infoObj ++ bs }

/-- `ASDU.appendUint16` (little-endian). -/
def appendUint16 (a : ASDU) (v : Nat) : ASDU :=
  a.appendBytes [v &&& 0xff, (v >>> 8) &&& 0xff]

/-- `ASDU.appendInfoObjAddr`: 1, 2 or 3 little-endian octets with an
upper-bound check per `InfoObjAddrSize`. -/
def appendInfoObjAddr (a : ASDU) (addr : Nat) : Except PError ASDU :=
  if a.params.infoObjAddrSize = 1 then
    if addr > 255 then .error .errInfoObjAddrFit
    else .ok (a.appendBytes [byteOf addr])
  else if a.params.infoObjAddrSize = 2 then
    if addr > 65535 then .error .errInfoObjAddrFit
    else .ok (a.appendBytes [byteOf addr, byteOf (addr >>> 8)])
  else if a.params.infoObjAddrSize = 3 then
    if addr > 16777215 then .error .errInfoObjAddrFit
    else .ok (a.appendBytes [byteOf addr, byteOf (addr >>> 8), byteOf (addr >>> 16)])
  else .error .errParam

/-- `ASDU.appendNormalize` (the 16-bit pattern, little-endian). -/
def appendNormalize (a : ASDU) (n : Nat) : ASDU :=
  a.appendBytes [byteOf n, byteOf (n >>> 8)]

/-- `ASDU.appendScaled`. -/
def appendScaled (a : ASDU) (n : Nat) : ASDU :=
  a.appendBytes [byteOf n, byteOf (n >>> 8)]

/-- `ASDU.appendFloat32` (the 32-bit pattern, little-endian). -/
def appendFloat32 (a : ASDU) (bits : Nat) : ASDU :=
  a.appendBytes [byteOf bits, byteOf (bits >>> 8), byteOf (bits >>> 16),
                 byteOf (bits >>> 24)]

/-- `ASDU.appendBinaryCounterReading`. -/
def appendBinaryCounterReading (a : ASDU) (v : BinaryCounterReading) : ASDU :=
  let value := (v.seqNumber &&& 0x1f) |||
    (if v.hasCarry then 0x20 else 0) |||
    (if v.isAdjusted then 0x40 else 0) |||
    (if v.isInvalid then 0x80 else 0)
  a.appendBytes [byteOf v.counterReading, byteOf (v.counterReading >>> 8),
                 byteOf (v.counterReading >>> 16), byteOf (v.counterReading >>> 24),
                 value]

/-- `ASDU.appendBitsString32`. -/
def appendBitsString32 (a : ASDU) (v : Nat) : ASDU :=
  a.appendBytes [byteOf v, byteOf (v >>> 8), byteOf (v >>> 16), byteOf (v >>> 24)]

/-- `ASDU.appendCP56Time2a`. -/
def appendCP56Time2a (a : ASDU) (t : GoTime) : ASDU :=
  a.appendBytes (CP56Time2a t)

/-- `ASDU.appendCP24Time2a`. -/
def appendCP24Time2a (a : ASDU) (t : GoTime) : ASDU :=
  a.appendBytes (CP24Time2a t)

/-- `ASDU.appendCP16Time2a`. -/
def appendCP16Time2a (a : ASDU) (msec : Nat) : ASDU :=
  a.appendBytes (CP16Time2a msec)

/-- `ASDU.appendStatusAndStatusChangeDetection`. -/
def appendSCD (a : ASDU) (scd : Nat) : ASDU :=
  a.appendBytes [byteOf scd, byteOf (scd >>> 8), byteOf (scd >>> 16),
                 byteOf (scd >>> 24)]

/-- `ASDU.SetVariableNumber`: rejects counts of 128 or more. -/
def setVariableNumber (a : ASDU) (n : Nat) : Except PError ASDU :=
  if n ≥ 128 then .error .errInfoObjIndexFit
  else .ok { a with identifier.variable'.number := n }

end ASDU

/-- `Header.ASDU` (`parse.go`): recreate an ASDU mirroring the original
header and payload. -/
def Header.toASDU (h : Header) : ASDU :=
  ⟨h.params, h.identifier, h.rawInfoObj⟩

/-- `encode_message.go` `newASDUFromHeader`: a fresh ASDU carrying the
header's parameters and identifier, with an empty information object. -/
def newASDUFromHeader (h : Header) : ASDU :=
  ⟨h.params, h.identifier, []⟩

/-- `encode_message.go` `setVariable`. -/
def setVariable (a : ASDU) (count : Nat) (isSequence : Bool) :
    Except PError ASDU :=
  ASDU.setVariableNumber { a with identifier.variable'.isSequence := isSequence } count

/-- The item loop of `encodeSinglePoint`. -/
def encodeSinglePointLoop (isSeq : Bool) (t : Nat) :
    List SinglePointInfo → Bool → ASDU → Except PError ASDU
  | [], _, a => .ok a
  | it :: rest, once, a =>
    match (if !isSeq || !once then a.appendInfoObjAddr it.ioa else .ok a) with
    | .error e => .error e
    | .ok a =>
      let val := (if it.value then 0x01 else 0) ||| (it.qds &&& 0xf0)
      let a := a.appendBytes [val]
      let a := if t == M_SP_TA_1 then a.appendCP24Time2a it.time
               else if t == M_SP_TB_1 then a.appendCP56Time2a it.time
               else a
      encodeSinglePointLoop isSeq t rest true a

/-- `encodeSinglePoint`. -/
def encodeSinglePoint (h : Header) (items : List SinglePointInfo) :
    Except PError ASDU :=
  let a := newASDUFromHeader h
  if items.length = 0 then .error .errNotAnyObjInfo
  else
    match setVariable a items.length h.identifier.variable'.isSequence with
    | .error e => .error e
    | .ok a => encodeSinglePointLoop h.identifier.variable'.isSequence
        h.identifier.type items false a

/-- The item loop of `encodeDoublePoint`. -/
def encodeDoublePointLoop (isSeq : Bool) (t : Nat) :
    List DoublePointInfo → Bool → ASDU → Except PError ASDU
  | [], _, a => .ok a
  | it :: rest, once, a =>
    match (if !isSeq || !once then a.appendInfoObjAddr it.ioa else .ok a) with
    | .error e => .error e
    | .ok a =>
      let a := a.appendBytes [(it.value &&& 0x03) ||| (it.qds &&& 0xf0)]
      let a := if t == M_DP_TA_1 then a.appendCP24Time2a it.time
               else if t == M_DP_TB_1 then a.appendCP56Time2a it.time
               else a
      encodeDoublePointLoop isSeq t rest true a

/-- `encodeDoublePoint`. -/
def encodeDoublePoint (h : Header) (items : List DoublePointInfo) :
    Except PError ASDU :=
  let a := newASDUFromHeader h
  if items.length = 0 then .error .errNotAnyObjInfo
  else
    match setVariable a items.length h.identifier.variable'.isSequence with
    | .error e => .error e
    | .ok a => encodeDoublePointLoop h.identifier.variable'.isSequence
        h.identifier.type items false a

/-- The item loop of `encodeStepPosition` (the source's CP56 arm also
names `M_SP_TB_1`, mirrored here verbatim). -/
def encodeStepPositionLoop (isSeq : Bool) (t : Nat) :
    List StepPositionInfo → Bool → ASDU → Except PError ASDU
  | [], _, a => .ok a
  | it :: rest, once, a =>
    match (if !isSeq || !once then a.appendInfoObjAddr it.ioa else .ok a) with
    | .error e => .error e
    | .ok a =>
      let a := a.appendBytes [it.value.value, it.qds]
      let a := if t == M_ST_TA_1 then a.appendCP24Time2a it.time
               else if t == M_ST_TB_1 || t == M_SP_TB_1 then
                 a.appendCP56Time2a it.time
               else a
      encodeStepPositionLoop isSeq t rest true a

/-- `encodeStepPosition`. -/
def encodeStepPosition (h : Header) (items : List StepPositionInfo) :
    Except PError ASDU :=
  let a := newASDUFromHeader h
  if items.length = 0 then .error .errNotAnyObjInfo
  else
    match setVariable a items.length h.identifier.variable'.isSequence with
    | .error e => .error e
    | .ok a => encodeStepPositionLoop h.identifier.variable'.isSequence
        h.identifier.type items false a

/-- The item loop of `encodeBitString32`. -/
def encodeBitString32Loop (isSeq : Bool) (t : Nat) :
    List BitString32Info → Bool → ASDU → Except PError ASDU
  | [], _, a => .ok a
  | it :: rest, once, a =>
    match (if !isSeq || !once then a.appendInfoObjAddr it.ioa else .ok a) with
    | .error e => .error e
    | .ok a =>
      let a := (a.appendBitsString32 it.value).appendBytes [it.qds]
      let a := if t == M_BO_TA_1 then a.appendCP24Time2a it.time
               else if t == M_BO_TB_1 then a.appendCP56Time2a it.time
               else a
      encodeBitString32Loop isSeq t rest true a

/-- `encodeBitString32`. -/
def encodeBitString32 (h : Header) (items : List BitString32Info) :
    Except PError ASDU :=
  let a := newASDUFromHeader h
  if items.length = 0 then .error .errNotAnyObjInfo
  else
    match setVariable a items.length h.identifier.variable'.isSequence with
    | .error e => .error e
    | .ok a => encodeBitString32Loop h.identifier.variable'.isSequence
        h.identifier.type items false a

/-- The item loop of `encodeMeasuredValueNormal`. -/
def encodeMeasuredValueNormalLoop (isSeq : Bool) (t : Nat) :
    List MeasuredValueNormalInfo → Bool → ASDU → Except PError ASDU
  | [], _, a => .ok a
  | it :: rest, once, a =>
    match (if !isSeq || !once then a.appendInfoObjAddr it.ioa else .ok a) with
    | .error e => .error e
    | .ok a =>
      let a := a.appendNormalize it.value
      let a := if t == M_ME_NA_1 then a.appendBytes [it.qds]
               else if t == M_ME_TA_1 then
                 (a.appendBytes [it.qds]).appendCP24Time2a it.time
               else if t == M_ME_TD_1 then
                 (a.appendBytes [it.qds]).appendCP56Time2a it.time
               else a
      encodeMeasuredValueNormalLoop isSeq t rest true a

/-- `encodeMeasuredValueNormal`. -/
def encodeMeasuredValueNormal (h : Header) (items : List MeasuredValueNormalInfo) :
    Except PError ASDU :=
  let a := newASDUFromHeader h
  if items.length = 0 then .error .errNotAnyObjInfo
  else
    match setVariable a items.length h.identifier.variable'.isSequence with
    | .error e => .error e
    | .ok a => encodeMeasuredValueNormalLoop h.identifier.variable'.isSequence
        h.identifier.type items false a

/-- The item loop of `encodeMeasuredValueScaled`. -/
def encodeMeasuredValueScaledLoop (isSeq : Bool) (t : Nat) :
    List MeasuredValueScaledInfo → Bool → ASDU → Except PError ASDU
  | [], _, a => .ok a
  | it :: rest, once, a =>
    match (if !isSeq || !once then a.appendInfoObjAddr it.ioa else .ok a) with
    | .error e => .error e
    | .ok a =>
      let a := (a.appendScaled it.value).appendBytes [it.qds]
      let a := if t == M_ME_TB_1 then a.appendCP24Time2a it.time
               else if t == M_ME_TE_1 then a.appendCP56Time2a it.time
               else a
      encodeMeasuredValueScaledLoop isSeq t rest true a

/-- `encodeMeasuredValueScaled`. -/
def encodeMeasuredValueScaled (h : Header) (items : List MeasuredValueScaledInfo) :
    Except PError ASDU :=
  let a := newASDUFromHeader h
  if items.length = 0 then .error .errNotAnyObjInfo
  else
    match setVariable a items.length h.identifier.variable'.isSequence with
    | .error e => .error e
    | .ok a => encodeMeasuredValueScaledLoop h.identifier.variable'.isSequence
        h.identifier.type items false a

/-- The item loop of `encodeMeasuredValueFloat`. -/
def encodeMeasuredValueFloatLoop (isSeq : Bool) (t : Nat) :
    List MeasuredValueFloatInfo → Bool → ASDU → Except PError ASDU
  | [], _, a => .ok a
  | it :: rest, once, a =>
    match (if !isSeq || !once then a.appendInfoObjAddr it.ioa else .ok a) with
    | .error e => .error e
    | .ok a =>
      let a := (a.appendFloat32 it.value).appendBytes [it.qds &&& 0xf1]
      let a := if t == M_ME_TC_1 then a.appendCP24Time2a it.time
               else if t == M_ME_TF_1 then a.appendCP56Time2a it.time
               else a
      encodeMeasuredValueFloatLoop isSeq t rest true a

/-- `encodeMeasuredValueFloat`. -/
def encodeMeasuredValueFloat (h : Header) (items : List MeasuredValueFloatInfo) :
    Except PError ASDU :=
  let a := newASDUFromHeader h
  if items.length = 0 then .error .errNotAnyObjInfo
  else
    match setVariable a items.length h.identifier.variable'.isSequence with
    | .error e => .error e
    | .ok a => encodeMeasuredValueFloatLoop h.identifier.variable'.isSequence
        h.identifier.type items false a

/-- The item loop of `encodeIntegratedTotals`. -/
def encodeIntegratedTotalsLoop (isSeq : Bool) (t : Nat) :
    List BinaryCounterReadingInfo → Bool → ASDU → Except PError ASDU
  | [], _, a => .ok a
  | it :: rest, once, a =>
    match (if !isSeq || !once then a.appendInfoObjAddr it.ioa else .ok a) with
    | .error e => .error e
    | .ok a =>
      let a := a.appendBinaryCounterReading it.value
      let a := if t == M_IT_TA_1 then a.appendCP24Time2a it.time
               else if t == M_IT_TB_1 then a.appendCP56Time2a it.time
               else a
      encodeIntegratedTotalsLoop isSeq t rest true a

/-- `encodeIntegratedTotals`. -/
def encodeIntegratedTotals (h : Header) (items : List BinaryCounterReadingInfo) :
    Except PError ASDU :=
  let a := newASDUFromHeader h
  if items.length = 0 then .error .errNotAnyObjInfo
  else
    match setVariable a items.length h.identifier.variable'.isSequence with
    | .error e => .error e
    | .ok a => encodeIntegratedTotalsLoop h.identifier.variable'.isSequence
        h.identifier.type items false a

/-- The item loop of `encodeEventOfProtection` (`Event` masked `0x03`,
`Qdp` masked `0xf8` on encode). -/
def encodeEventOfProtectionLoop (isSeq : Bool) (t : Nat) :
    List EventOfProtectionEquipmentInfo → Bool → ASDU → Except PError ASDU
  | [], _, a => .ok a
  | it :: rest, once, a =>
    match (if !isSeq || !once then a.appendInfoObjAddr it.ioa else .ok a) with
    | .error e => .error e
    | .ok a =>
      let a := a.appendBytes [(it.event &&& 0x03) ||| (it.qdp &&& 0xf8)]
      let a := a.appendCP16Time2a it.msec
      let a := if t == M_EP_TA_1 then a.appendCP24Time2a it.time
               else if t == M_EP_TD_1 then a.appendCP56Time2a it.time
               else a
      encodeEventOfProtectionLoop isSeq t rest true a

/-- `encodeEventOfProtection`. -/
def encodeEventOfProtection (h : Header)
    (items : List EventOfProtectionEquipmentInfo) : Except PError ASDU :=
  let a := newASDUFromHeader h
  if items.length = 0 then .error .errNotAnyObjInfo
  else
    match setVariable a items.length h.identifier.variable'.isSequence with
    | .error e => .error e
    | .ok a => encodeEventOfProtectionLoop h.identifier.variable'.isSequence
        h.identifier.type items false a

/-- `encodePackedStartEvents`. -/
def encodePackedStartEvents (h : Header)
    (it : PackedStartEventsOfProtectionEquipmentInfo) : Except PError ASDU :=
  let a := newASDUFromHeader h
  match setVariable a 1 false with
  | .error e => .error e
  | .ok a =>
    match a.appendInfoObjAddr it.ioa with
    | .error e => .error e
    | .ok a =>
      let a := a.appendBytes [byteOf it.event, byteOf it.qdp &&& 0xf1]
      let a := a.appendCP16Time2a it.msec
      let t := h.identifier.type
      let a := if t == M_EP_TB_1 then a.appendCP24Time2a it.time
               else if t == M_EP_TE_1 then a.appendCP56Time2a it.time
               else a
      .ok a

/-- `encodePackedOutputCircuit`. -/
def encodePackedOutputCircuit (h : Header) (it : PackedOutputCircuitInfoInfo) :
    Except PError ASDU :=
  let a := newASDUFromHeader h
  match setVariable a 1 false with
  | .error e => .error e
  | .ok a =>
    match a.appendInfoObjAddr it.ioa with
    | .error e => .error e
    | .ok a =>
      let a := a.appendBytes [byteOf it.oci, byteOf it.qdp &&& 0xf1]
      let a := a.appendCP16Time2a it.msec
      let t := h.identifier.type
      let a := if t == M_EP_TC_1 then a.appendCP24Time2a it.time
               else if t == M_EP_TF_1 then a.appendCP56Time2a it.time
               else a
      .ok a

/-- The item loop of `encodePackedSinglePointWithSCD`. -/
def encodePackedSinglePointLoop (isSeq : Bool) :
    List PackedSinglePointWithSCDInfo → Bool → ASDU → Except PError ASDU
  | [], _, a => .ok a
  | it :: rest, once, a =>
    match (if !isSeq || !once then a.appendInfoObjAddr it.ioa else .ok a) with
    | .error e => .error e
    | .ok a =>
      let a := (a.appendSCD it.scd).appendBytes [it.qds]
      encodePackedSinglePointLoop isSeq rest true a

/-- `encodePackedSinglePointWithSCD`. -/
def encodePackedSinglePointWithSCD (h : Header)
    (items : List PackedSinglePointWithSCDInfo) : Except PError ASDU :=
  let a := newASDUFromHeader h
  if items.length = 0 then .error .errNotAnyObjInfo
  else
    match setVariable a items.length h.identifier.variable'.isSequence with
    | .error e => .error e
    | .ok a => encodePackedSinglePointLoop h.identifier.variable'.isSequence
        items false a

/-- `encodeEndOfInit`. -/
def encodeEndOfInit (h : Header) (ioa : Nat) (coi : CauseOfInitial) :
    Except PError ASDU :=
  let a := newASDUFromHeader h
  match setVariable a 1 false with
  | .error e => .error e
  | .ok a =>
    match a.appendInfoObjAddr ioa with
    | .error e => .error e
    | .ok a => .ok (a.appendBytes [coi.value])

/-- `encodeSingleCommand`. -/
def encodeSingleCommand (h : Header) (cmd : SingleCommandInfo) :
    Except PError ASDU :=
  let a := newASDUFromHeader h
  match setVariable a 1 false with
  | .error e => .error e
  | .ok a =>
    match a.appendInfoObjAddr cmd.ioa with
    | .error e => .error e
    | .ok a =>
      let val := if cmd.value then 0x01 else 0
      let a := a.appendBytes [cmd.qoc.value ||| val]
      let a := if h.identifier.type == C_SC_TA_1 then a.appendCP56Time2a cmd.time
               else a
      .ok a

/-- `encodeDoubleCommand`. -/
def encodeDoubleCommand (h : Header) (cmd : DoubleCommandInfo) :
    Except PError ASDU :=
  let a := newASDUFromHeader h
  match setVariable a 1 false with
  | .error e => .error e
  | .ok a =>
    match a.appendInfoObjAddr cmd.ioa with
    | .error e => .error e
    | .ok a =>
      let a := a.appendBytes [cmd.qoc.value ||| (cmd.value &&& 0x03)]
      let a := if h.identifier.type == C_DC_TA_1 then a.appendCP56Time2a cmd.time
               else a
      .ok a

/-- `encodeStepCommand`. -/
def encodeStepCommand (h : Header) (cmd : StepCommandInfo) :
    Except PError ASDU :=
  let a := newASDUFromHeader h
  match setVariable a 1 false with
  | .error e => .error e
  | .ok a =>
    match a.appendInfoObjAddr cmd.ioa with
    | .error e => .error e
    | .ok a =>
      let a := a.appendBytes [cmd.qoc.value ||| (cmd.value &&& 0x03)]
      let a := if h.identifier.type == C_RC_TA_1 then a.appendCP56Time2a cmd.time
               else a
      .ok a

/-- `encodeSetpointNormal`. -/
def encodeSetpointNormal (h : Header) (cmd : SetpointCommandNormalInfo) :
    Except PError ASDU :=
  let a := newASDUFromHeader h
  match setVariable a 1 false with
  | .error e => .error e
  | .ok a =>
    match a.appendInfoObjAddr cmd.ioa with
    | .error e => .error e
    | .ok a =>
      let a := (a.appendNormalize cmd.value).appendBytes [cmd.qos.value]
      let a := if h.identifier.type == C_SE_TA_1 then a.appendCP56Time2a cmd.time
               else a
      .ok a

/-- `encodeSetpointScaled`. -/
def encodeSetpointScaled (h : Header) (cmd : SetpointCommandScaledInfo) :
    Except PError ASDU :=
  let a := newASDUFromHeader h
  match setVariable a 1 false with
  | .error e => .error e
  | .ok a =>
    match a.appendInfoObjAddr cmd.ioa with
    | .error e => .error e
    | .ok a =>
      let a := (a.appendScaled cmd.value).appendBytes [cmd.qos.value]
      let a := if h.identifier.type == C_SE_TB_1 then a.appendCP56Time2a cmd.time
               else a
      .ok a

/-- `encodeSetpointFloat`. -/
def encodeSetpointFloat (h : Header) (cmd : SetpointCommandFloatInfo) :
    Except PError ASDU :=
  let a := newASDUFromHeader h
  match setVariable a 1 false with
  | .error e => .error e
  | .ok a =>
    match a.appendInfoObjAddr cmd.ioa with
    | .error e => .error e
    | .ok a =>
      let a := (a.appendFloat32 cmd.value).appendBytes [cmd.qos.value]
      let a := if h.identifier.type == C_SE_TC_1 then a.appendCP56Time2a cmd.time
               else a
      .ok a

/-- `encodeBitsString32Cmd`. -/
def encodeBitsString32Cmd (h : Header) (cmd : BitsString32CommandInfo) :
    Except PError ASDU :=
  let a := newASDUFromHeader h
  match setVariable a 1 false with
  | .error e => .error e
  | .ok a =>
    match a.appendInfoObjAddr cmd.ioa with
    | .error e => .error e
    | .ok a =>
      let a := a.appendBitsString32 cmd.value
      let a := if h.identifier.type == C_BO_TA_1 then a.appendCP56Time2a cmd.time
               else a
      .ok a

/-- `encodeParameterNormal`. -/
def encodeParameterNormal (h : Header) (pa : ParameterNormalInfo) :
    Except PError ASDU :=
  let a := newASDUFromHeader h
  match setVariable a 1 false with
  | .error e => .error e
  | .ok a =>
    match a.appendInfoObjAddr pa.ioa with
    | .error e => .error e
    | .ok a => .ok ((a.appendNormalize pa.value).appendBytes [pa.qpm.value])

/-- `encodeParameterScaled`. -/
def encodeParameterScaled (h : Header) (pa : ParameterScaledInfo) :
    Except PError ASDU :=
  let a := newASDUFromHeader h
  match setVariable a 1 false with
  | .error e => .error e
  | .ok a =>
    match a.appendInfoObjAddr pa.ioa with
    | .error e => .error e
    | .ok a => .ok ((a.appendScaled pa.value).appendBytes [pa.qpm.value])

/-- `encodeParameterFloat`. -/
def encodeParameterFloat (h : Header) (pa : ParameterFloatInfo) :
    Except PError ASDU :=
  let a := newASDUFromHeader h
  match setVariable a 1 false with
  | .error e => .error e
  | .ok a =>
    match a.appendInfoObjAddr pa.ioa with
    | .error e => .error e
    | .ok a => .ok ((a.appendFloat32 pa.value).appendBytes [pa.qpm.value])

/-- `encodeParameterActivation`. -/
def encodeParameterActivation (h : Header) (pa : ParameterActivationInfo) :
    Except PError ASDU :=
  let a := newASDUFromHeader h
  match setVariable a 1 false with
  | .error e => .error e
  | .ok a =>
    match a.appendInfoObjAddr pa.ioa with
    | .error e => .error e
    | .ok a => .ok (a.appendBytes [byteOf pa.qpa])

/-- `encodeInterrogationCmd`. -/
def encodeInterrogationCmd (h : Header) (ioa qoi : Nat) : Except PError ASDU :=
  let a := newASDUFromHeader h
  match setVariable a 1 false with
  | .error e => .error e
  | .ok a =>
    match a.appendInfoObjAddr ioa with
    | .error e => .error e
    | .ok a => .ok (a.appendBytes [byteOf qoi])

/-- `encodeCounterInterrogationCmd`. -/
def encodeCounterInterrogationCmd (h : Header) (ioa : Nat)
    (qcc : QualifierCountCall) : Except PError ASDU :=
  let a := newASDUFromHeader h
  match setVariable a 1 false with
  | .error e => .error e
  | .ok a =>
    match a.appendInfoObjAddr ioa with
    | .error e => .error e
    | .ok a => .ok (a.appendBytes [qcc.value])

/-- `encodeReadCmd`. -/
def encodeReadCmd (h : Header) (ioa : Nat) : Except PError ASDU :=
  let a := newASDUFromHeader h
  match setVariable a 1 false with
  | .error e => .error e
  | .ok a => a.appendInfoObjAddr ioa

/-- `encodeClockSyncCmd`. -/
def encodeClockSyncCmd (h : Header) (ioa : Nat) (t : GoTime) :
    Except PError ASDU :=
  let a := newASDUFromHeader h
  match setVariable a 1 false with
  | .error e => .error e
  | .ok a =>
    match a.appendInfoObjAddr ioa with
    | .error e => .error e
    | .ok a => .ok (a.appendCP56Time2a t)

/-- `encodeTestCmd`. -/
def encodeTestCmd (h : Header) (ioa : Nat) (test : Bool) : Except PError ASDU :=
  let a := newASDUFromHeader h
  match setVariable a 1 false with
  | .error e => .error e
  | .ok a =>
    match a.appendInfoObjAddr ioa with
    | .error e => .error e
    | .ok a => .ok (a.appendUint16 (if test then FBPTestWord else 0))

/-- `encodeResetProcessCmd`. -/
def encodeResetProcessCmd (h : Header) (ioa qrp : Nat) : Except PError ASDU :=
  let a := newASDUFromHeader h
  match setVariable a 1 false with
  | .error e => .error e
  | .ok a =>
    match a.appendInfoObjAddr ioa with
    | .error e => .error e
    | .ok a => .ok (a.appendBytes [byteOf qrp])

/-- `encodeDelayAcquireCmd`. -/
def encodeDelayAcquireCmd (h : Header) (ioa msec : Nat) : Except PError ASDU :=
  let a := newASDUFromHeader h
  match setVariable a 1 false with
  | .error e => .error e
  | .ok a =>
    match a.appendInfoObjAddr ioa with
    | .error e => .error e
    | .ok a => .ok (a.appendCP16Time2a msec)

/-- `encodeTestCmdCP56`. -/
def encodeTestCmdCP56 (h : Header) (ioa : Nat) (test : Bool) (t : GoTime) :
    Except PError ASDU :=
  let a := newASDUFromHeader h
  match setVariable a 1 false with
  | .error e => .error e
  | .ok a =>
    match a.appendInfoObjAddr ioa with
    | .error e => .error e
    | .ok a =>
      let a := a.appendUint16 (if test then FBPTestWord else 0)
      .ok (a.appendCP56Time2a t)

/-- `asdu.EncodeMessage`: builds an ASDU from a parsed message.  The
source's type switch lists only the value types (`case UnknownMsg`,
`case SinglePointMsg`, …).  Since every method of every message struct
has a pointer receiver, only pointer types implement `asdu.Message` —
the interface argument always holds a pointer, no listed case can match
its dynamic type, and only the `default` arm (`errEncodeUnsupported`)
is reachable.  The value-typed cases are embedded below the `isPtr`
test exactly as written, one per struct. -/
def EncodeMessage (m : GoMessage) : Except PError ASDU :=
  if m.isPtr then .error .errEncodeUnsupported
  else
    match m.msg with
    | .unknown h =>
      if h.rawInfoObj.length = 0 then .error .errTypeIDNotMatch
      else .ok h.toASDU
    | .singlePoint h items => encodeSinglePoint h items
    | .doublePoint h items => encodeDoublePoint h items
    | .stepPosition h items => encodeStepPosition h items
    | .bitString32 h items => encodeBitString32 h items
    | .measuredValueNormal h items => encodeMeasuredValueNormal h items
    | .measuredValueScaled h items => encodeMeasuredValueScaled h items
    | .measuredValueFloat h items => encodeMeasuredValueFloat h items
    | .integratedTotals h items => encodeIntegratedTotals h items
    | .eventOfProtection h items => encodeEventOfProtection h items
    | .packedStartEvents h it => encodePackedStartEvents h it
    | .packedOutputCircuit h it => encodePackedOutputCircuit h it
    | .packedSinglePointWithSCD h items => encodePackedSinglePointWithSCD h items
    | .endOfInit h ioa coi => encodeEndOfInit h ioa coi
    | .singleCommand h cmd => encodeSingleCommand h cmd
    | .doubleCommand h cmd => encodeDoubleCommand h cmd
    | .stepCommand h cmd => encodeStepCommand h cmd
    | .setpointNormal h cmd => encodeSetpointNormal h cmd
    | .setpointScaled h cmd => encodeSetpointScaled h cmd
    | .setpointFloat h cmd => encodeSetpointFloat h cmd
    | .bitsString32Cmd h cmd => encodeBitsString32Cmd h cmd
    | .parameterNormal h pa => encodeParameterNormal h pa
    | .parameterScaled h pa => encodeParameterScaled h pa
    | .parameterFloat h pa => encodeParameterFloat h pa
    | .parameterActivation h pa => encodeParameterActivation h pa
    | .interrogationCmd h ioa qoi => encodeInterrogationCmd h ioa qoi
    | .counterInterrogationCmd h ioa qcc => encodeCounterInterrogationCmd h ioa qcc
    | .readCmd h ioa => encodeReadCmd h ioa
    | .clockSyncCmd h ioa t => encodeClockSyncCmd h ioa t
    | .testCmd h ioa test => encodeTestCmd h ioa test
    | .resetProcessCmd h ioa qrp => encodeResetProcessCmd h ioa qrp
    | .delayAcquireCmd h ioa msec => encodeDelayAcquireCmd h ioa msec
    | .testCmdCP56 h ioa test t => encodeTestCmdCP56 h ioa test t

end GoIecp5

namespace GoIecp5

/-! ## ASDU header codec (`asdu/asdu.go`) -/

/-- Modelled from the spec: `GetInfoObjSize`, the fixed per-item element
size (quality and time tag included, address excluded) of each supported
TypeID.  Its defining file is not among the available sources; the sizes
follow the element layouts of spec §4.3 (single/double point 1 octet,
step 2, bitstring-32 and measured float 4+1, measured normalized 2+1
with the quality-less variant omitting the trailing byte, measured
scaled 2+1, integrated totals 5, protection events 1 + CP16, packed
protection events/output 2 + CP16, packed single points 4+1, commands
and qualifiers 1, setpoints value+QOS, clock sync CP56, test word 2,
delay CP16) plus the 3- or 7-octet CP24/CP56 time tag for the
time-tagged variants; unsupported TypeIDs are an error. -/
def GetInfoObjSize (t : Nat) : Except PError Nat :=
  if t = M_SP_NA_1 then .ok 1
  else if t = M_SP_TA_1 then .ok 4
  else if t = M_SP_TB_1 then .ok 8
  else if t = M_DP_NA_1 then .ok 1
  else if t = M_DP_TA_1 then .ok 4
  else if t = M_DP_TB_1 then .ok 8
  else if t = M_ST_NA_1 then .ok 2
  else if t = M_ST_TA_1 then .ok 5
  else if t = M_ST_TB_1 then .ok 9
  else if t = M_BO_NA_1 then .ok 5
  else if t = M_BO_TA_1 then .ok 8
  else if t = M_BO_TB_1 then .ok 12
  else if t = M_ME_NA_1 then .ok 3
  else if t = M_ME_TA_1 then .ok 6
  else if t = M_ME_TD_1 then .ok 10
  else if t = M_ME_ND_1 then .ok 2
  else if t = M_ME_NB_1 then .ok 3
  else if t = M_ME_TB_1 then .ok 6
  else if t = M_ME_TE_1 then .ok 10
  else if t = M_ME_NC_1 then .ok 5
  else if t = M_ME_TC_1 then .ok 8
  else if t = M_ME_TF_1 then .ok 12
  else if t = M_IT_NA_1 then .ok 5
  else if t = M_IT_TA_1 then .ok 8
  else if t = M_IT_TB_1 then .ok 12
  else if t = M_EP_TA_1 then .ok 6
  else if t = M_EP_TD_1 then .ok 10
  else if t = M_EP_TB_1 then .ok 7
  else if t = M_EP_TE_1 then .ok 11
  else if t = M_EP_TC_1 then .ok 7
  else if t = M_EP_TF_1 then .ok 11
  else if t = M_PS_NA_1 then .ok 5
  else if t = M_EI_NA_1 then .ok 1
  else if t = C_SC_NA_1 then .ok 1
  else if t = C_SC_TA_1 then .ok 8
  else if t = C_DC_NA_1 then .ok 1
  else if t = C_DC_TA_1 then .ok 8
  else if t = C_RC_NA_1 then .ok 1
  else if t = C_RC_TA_1 then .ok 8
  else if t = C_SE_NA_1 then .ok 3
  else if t = C_SE_TA_1 then .ok 10
  else if t = C_SE_NB_1 then .ok 3
  else if t = C_SE_TB_1 then .ok 10
  else if t = C_SE_NC_1 then .ok 5
  else if t = C_SE_TC_1 then .ok 12
  else if t = C_BO_NA_1 then .ok 4
  else if t = C_BO_TA_1 then .ok 11
  else if t = C_IC_NA_1 then .ok 1
  else if t = C_CI_NA_1 then .ok 1
  else if t = C_RD_NA_1 then .ok 0
  else if t = C_CS_NA_1 then .ok 7
  else if t = C_TS_NA_1 then .ok 2
  else if t = C_RP_NA_1 then .ok 1
  else if t = C_CD_NA_1 then .ok 2
  else if t = C_TS_TA_1 then .ok 9
  else if t = P_ME_NA_1 then .ok 3
  else if t = P_ME_NB_1 then .ok 3
  else if t = P_ME_NC_1 then .ok 5
  else if t = P_AC_NA_1 then .ok 1
  else .error .errTypeIDNotMatch

/-- The element count times element size implied by the identifier:
`InfoObjAddrSize + Number·objSize` in sequence layout,
`Number·(InfoObjAddrSize + objSize)` in scatter layout (the `size`
local of `fixInfoObjSize`). -/
def impliedInfoObjSize (p : Params) (v : VariableStruct) (objSize : Nat) : Nat :=
  if v.isSequence then p.infoObjAddrSize + v.number * objSize
  else v.number * (p.infoObjAddrSize + objSize)

/-- `ASDU.fixInfoObjSize`: zero implied size is rejected, a shorter
buffer is an `io.EOF`, a longer buffer is silently truncated to the
implied size. -/
def fixInfoObjSize (a : ASDU) : Except PError ASDU :=
  match GetInfoObjSize a.identifier.type with
  | .error e => .error e
  | .ok objSize =>
    let size := impliedInfoObjSize a.params a.identifier.variable' objSize
    if size = 0 then .error .errInfoObjIndexFit
    else if size > a.infoObj.length then .error .eof
    else if size < a.infoObj.length then .ok { a with infoObj := a.infoObj.take size }
    else .ok a

/-- `ASDU.MarshalBinary`: the six validation cases followed by the
header-byte layout `[typeid | vsq | cause | (origin) | common
address]` ++ information object. -/
def MarshalBinary (a : ASDU) : Except PError (List Nat) :=
  if a.identifier.coa.cause = Unused then .error .errCauseZero
  else if ¬(a.params.causeSize = 1 ∨ a.params.causeSize = 2) then .error .errParam
  else if a.params.causeSize = 1 ∧ a.identifier.origAddr ≠ 0 then
    .error .errOriginAddrFit
  else if a.identifier.commonAddr = InvalidCommonAddr then .error .errCommonAddrZero
  else if ¬(a.params.commonAddrSize = 1 ∨ a.params.commonAddrSize = 2) then
    .error .errParam
  else if a.params.commonAddrSize = 1 ∧ a.identifier.commonAddr ≠ GlobalCommonAddr ∧
      a.identifier.commonAddr ≥ 255 then .error .errParam
  else
    let head := [a.identifier.type, a.identifier.variable'.value,
                 a.identifier.coa.value]
    let head := head ++ (if a.params.causeSize = 2 then [byteOf a.identifier.origAddr] else [])
    let head := head ++
      (if a.params.commonAddrSize = 1 then
        (if a.identifier.commonAddr = GlobalCommonAddr then [255]
         else [byteOf a.identifier.commonAddr])
       else [byteOf a.identifier.commonAddr, byteOf (a.identifier.commonAddr >>> 8)])
    .ok (head ++ a.infoObj)

/-- `ASDU.UnmarshalBinary`: parameter check, identifier decode (with the
1-octet common-address byte 255 widened to the 16-bit broadcast
address), then `fixInfoObjSize`. -/
def UnmarshalBinary (p : Params) (rawAsdu : List Nat) : Except PError ASDU :=
  if ¬(p.causeSize = 1 ∨ p.causeSize = 2) ∨
     ¬(p.commonAddrSize = 1 ∨ p.commonAddrSize = 2) then .error .errParam
  else
    let lenDUI := p.identifierSize
    if lenDUI > rawAsdu.length then .error .eof
    else
      let commonAddr :=
        if p.commonAddrSize = 1 then
          let c := rawAsdu.get! (lenDUI - 1)
          if c = 255 then GlobalCommonAddr else c
        else rawAsdu.get! (lenDUI - 2) + 256 * rawAsdu.get! (lenDUI - 1)
      fixInfoObjSize
        { params := p,
          identifier :=
            { type := rawAsdu.get! 0,
              variable' := ParseVariableStruct (rawAsdu.get! 1),
              coa := ParseCauseOfTransmission (rawAsdu.get! 2),
              origAddr := if p.causeSize = 1 then 0 else rawAsdu.get! 3,
              commonAddr := commonAddr },
          infoObj := rawAsdu.drop lenDUI }

end GoIecp5

namespace GoIecp5

namespace Cs104

/-! ## CS104 APCI frame codec and client send path (`cs104/apci.go`,
`cs104` client and configuration files) -/

/-- `startFrame` (0x68). -/
def startFrame : Nat := 0x68

/-- `asdu.ASDUSizeMax` (249). -/
def ASDUSizeMax : Nat := 249

/-- U-frame function codes (`uStartDtActive` …). -/
def uStartDtActive : Nat := 0x04
def uStartDtConfirm : Nat := 0x08
def uStopDtActive : Nat := 0x10
def uStopDtConfirm : Nat := 0x20
def uTestFrActive : Nat := 0x40
def uTestFrConfirm : Nat := 0x80

/-- `newIFrame`: start octet, length, the four control octets carrying
the two 15-bit sequence numbers shifted left by one, then the ASDU
bytes; an ASDU longer than 249 octets is an error.  Control octets are
built with the `uint16` shifts of the source truncated to bytes. -/
def newIFrame (sendSN rcvSN : Nat) (asdus : List Nat) :
    Except PError (List Nat) :=
  if asdus.length > ASDUSizeMax then .error .errAsduTooLarge
  else
    .ok ([startFrame, byteOf (asdus.length + 4),
          byteOf ((sendSN <<< 1) % 65536), byteOf (sendSN >>> 7),
          byteOf ((rcvSN <<< 1) % 65536), byteOf (rcvSN >>> 7)] ++ asdus)

/-- `newSFrame`. -/
def newSFrame (rcvSN : Nat) : List Nat :=
  [startFrame, 4, 0x01, 0x00, byteOf ((rcvSN <<< 1) % 65536), byteOf (rcvSN >>> 7)]

/-- `newUFrame`. -/
def newUFrame (which : Nat) : List Nat :=
  [startFrame, 4, which ||| 0x03, 0x00, 0x00, 0x00]

/-- The three APCI variants returned by `cs104`'s `parse`
(`iAPCI`, `sAPCI`, `uAPCI`). -/
inductive Apci where
  | i (sendSN rcvSN : Nat)
  | s (rcvSN : Nat)
  | u (function : Nat)
  deriving DecidableEq, Repr

/-- `cs104` `parse`: frame discrimination on the first control octet
(bit 0 clear → I, bits 0..1 = 01 → S, otherwise U), with the remaining
bytes after the six-octet APCI returned unconsumed.  Only called on
frames of at least six octets. -/
def parse (apdu : List Nat) : Apci × List Nat :=
  let ctr1 := apdu.get! 2
  let ctr2 := apdu.get! 3
  let ctr3 := apdu.get! 4
  let ctr4 := apdu.get! 5
  if ctr1 &&& 0x01 = 0 then
    (.i ((ctr1 >>> 1) + (ctr2 <<< 7)) ((ctr3 >>> 1) + (ctr4 <<< 7)), apdu.drop 6)
  else if ctr1 &&& 0x03 = 0x01 then
    (.s ((ctr3 >>> 1) + (ctr4 <<< 7)), apdu.drop 6)
  else
    (.u (ctr1 &&& 0xfc), apdu.drop 6)

/-- Modelled from the spec: `seqNoCount`, the 15-bit sliding-window
distance `distance(a, b) = (b − a) mod 2¹⁵` (spec §8); its defining
file is not among the available sources. -/
def seqNoCount (nextAckNo nextSeqNo : Nat) : Nat :=
  (nextSeqNo + 32768 - nextAckNo) % 32768

/-- The client session state touched by the send path of `Client.run`:
the four sequence counters, the `pending` queue (sequence numbers; the
send timestamps play no part in the window check), the activity flag,
the user ASDU queue (`sendASDU`) and the raw frames handed to the
writer (`sendRaw`), in emission order. -/
structure ClientState where
  seqNoSend : Nat
  ackNoSend : Nat
  seqNoRcv : Nat
  ackNoRcv : Nat
  pending : List Nat
  isActive : Bool
  sendQueue : List (List Nat)
  sentFrames : List (List Nat)
  deriving DecidableEq, Repr

/-- The state of a freshly connected client (`cleanUp`: all counters
zero, `pending` nil) with window `sendQueue` contents supplied by the
caller. -/
def initialClientState (active : Bool) (queue : List (List Nat)) : ClientState :=
  ⟨0, 0, 0, 0, [], active, queue, []⟩

/-- `sendIFrame` (the closure in `Client.run`): build the I-frame for
the next send sequence number, record the piggybacked receive ack,
advance `seqNoSend` mod 2¹⁵ and append the sequence number to
`pending`; a `newIFrame` error returns without sending. -/
def sendIFrame (st : ClientState) (asdu1 : List Nat) : ClientState :=
  let seqNo := st.seqNoSend
  match newIFrame seqNo st.seqNoRcv asdu1 with
  | .error _ => st
  | .ok iframe =>
    { st with
      ackNoRcv := st.seqNoRcv,
      seqNoSend := (seqNo + 1) &&& 32767,
      pending := st.pending ++ [seqNo &&& 32767],
      sentFrames := st.sentFrames ++ [iframe] }

/-- One pass of the send branch at the top of `Client.run`'s loop: when
the connection is active and `seqNoCount(ackNoSend, seqNoSend) <= k`,
dequeue one user ASDU (if any) and emit it as an I-frame. -/
def trySendStep (k : Nat) (st : ClientState) : ClientState :=
  if st.isActive ∧ seqNoCount st.ackNoSend st.seqNoSend ≤ k then
    match st.sendQueue with
    | [] => st
    | o :: rest => sendIFrame { st with sendQueue := rest } o
  else st

/-! ## CS104 configuration (`Config.Valid`)

Durations are modelled in nanoseconds (Go `time.Duration`). -/

/-- One second in `time.Duration` units. -/
def second : Nat := 1000000000
/-- One hour in `time.Duration` units. -/
def hour : Nat := 3600 * second

/-- `cs104.Config`. -/
structure Config where
  connectTimeout0 : Nat
  sendUnAckLimitK : Nat
  sendUnAckTimeout1 : Nat
  recvUnAckLimitW : Nat
  recvUnAckTimeout2 : Nat
  idleTimeout3 : Nat
  deriving DecidableEq, Repr

/-- `cs104.DefaultConfig`. -/
def DefaultConfig : Config :=
  ⟨30 * second, 12, 15 * second, 8, 10 * second, 20 * second⟩

/-- The `ConnectTimeout0` block of `Config.Valid`: default when unset,
range check otherwise. -/
def checkT0 (c : Config) : Except String Config :=
  if c.connectTimeout0 = 0 then .ok { c with connectTimeout0 := 30 * second }
  else if c.connectTimeout0 < 1 * second ∨ c.connectTimeout0 > 255 * second then
    .error "ConnectTimeout0 \"t0\" not in [1, 255]s"
  else .ok c

/-- The `SendUnAckLimitK` block of `Config.Valid`. -/
def checkK (c : Config) : Except String Config :=
  if c.sendUnAckLimitK = 0 then .ok { c with sendUnAckLimitK := 12 }
  else if c.sendUnAckLimitK < 1 ∨ c.sendUnAckLimitK > 32767 then
    .error "SendUnAckLimitK \"k\" not in [1, 32767]"
  else .ok c

/-- The `SendUnAckTimeout1` block of `Config.Valid`. -/
def checkT1 (c : Config) : Except String Config :=
  if c.sendUnAckTimeout1 = 0 then .ok { c with sendUnAckTimeout1 := 15 * second }
  else if c.sendUnAckTimeout1 < 1 * second ∨ c.sendUnAckTimeout1 > 255 * second then
    .error "SendUnAckTimeout1 \"t1\" not in [1, 255]s"
  else .ok c

/-- The `RecvUnAckLimitW` block of `Config.Valid`. -/
def checkW (c : Config) : Except String Config :=
  if c.recvUnAckLimitW = 0 then .ok { c with recvUnAckLimitW := 8 }
  else if c.recvUnAckLimitW < 1 ∨ c.recvUnAckLimitW > 32767 then
    .error "RecvUnAckLimitW \"w\" not in [1, 32767]"
  else .ok c

/-- The `RecvUnAckTimeout2` block of `Config.Valid`. -/
def checkT2 (c : Config) : Except String Config :=
  if c.recvUnAckTimeout2 = 0 then .ok { c with recvUnAckTimeout2 := 10 * second }
  else if c.recvUnAckTimeout2 < 1 * second ∨ c.recvUnAckTimeout2 > 255 * second then
    .error "RecvUnAckTimeout2 \"t2\" not in [1, 255]s"
  else .ok c

/-- The `IdleTimeout3` block of `Config.Valid`. -/
def checkT3 (c : Config) : Except String Config :=
  if c.idleTimeout3 = 0 then .ok { c with idleTimeout3 := 20 * second }
  else if c.idleTimeout3 < 1 * second ∨ c.idleTimeout3 > 48 * hour then
    .error "IdleTimeout3 \"t3\" not in [1 second, 48 hours]"
  else .ok c

/-- `Config.Valid`: the six per-field blocks of the source, in source
order; each block replaces an unset (zero) field by its default and
rejects a set field outside its IEC range.  The source mutates the
receiver; here the updated configuration is returned on success. -/
def Config.valid (c : Config) : Except String Config :=
  match checkT0 c with
  | .error e => .error e
  | .ok c =>
    match checkK c with
    | .error e => .error e
    | .ok c =>
      match checkT1 c with
      | .error e => .error e
      | .ok c =>
        match checkW c with
        | .error e => .error e
        | .ok c =>
          match checkT2 c with
          | .error e => .error e
          | .ok c => checkT3 c

end Cs104

end GoIecp5

namespace GoIecp5

/-! ## Theorems -/

/-- C1: the claimed round-trip — `ParseASDU` then `EncodeMessage` then
`MarshalBinary` returning the original bytes — fails on the spec's own
scenario-1 input (narrow parameters, `M_SP_NA_1`, one point): parsing
succeeds, but `EncodeMessage`'s type switch lists only value dynamic
types while every parsed message is a pointer, so encoding returns
`errEncodeUnsupported` and no bytes are ever produced. -/
theorem encodeMessage_parseASDU_unsupported :
    ((do
      let a ← UnmarshalBinary ParamsNarrow [0x01, 0x01, 0x03, 0x01, 0x01, 0x01]
      ParseASDU a ⟨2025, 1, 1, 9, 0, 0, 0⟩ : Except PError GoMessage)).isOk = true
    ∧ (do
        let a ← UnmarshalBinary ParamsNarrow [0x01, 0x01, 0x03, 0x01, 0x01, 0x01]
        let m ← ParseASDU a ⟨2025, 1, 1, 9, 0, 0, 0⟩
        let a2 ← EncodeMessage m
        MarshalBinary a2) = .error .errEncodeUnsupported := by
  constructor
  · rfl
  · rfl

/-- C3: the session does not withhold the (k+1)-th unacknowledged
I-frame.  The send branch of `Client.run` fires while
`seqNoCount(ackNoSend, seqNoSend) <= k`, so with `k = 2` and three
submitted ASDUs all three I-frames go out with no acknowledgement in
between, `pending` reaches length 3 and the window distance reaches
3 > k — contradicting the claimed `distance ≤ k` invariant and the
claimed two-then-withhold scenario. -/
theorem trySendStep_exceeds_window :
    (Cs104.trySendStep 2 (Cs104.trySendStep 2 (Cs104.trySendStep 2
        (Cs104.initialClientState true [[0x01], [0x02], [0x03]])))).sentFrames.length = 3
    ∧ (Cs104.trySendStep 2 (Cs104.trySendStep 2 (Cs104.trySendStep 2
        (Cs104.initialClientState true [[0x01], [0x02], [0x03]])))).sendQueue = []
    ∧ (Cs104.trySendStep 2 (Cs104.trySendStep 2 (Cs104.trySendStep 2
        (Cs104.initialClientState true [[0x01], [0x02], [0x03]])))).pending.length = 3
    ∧ Cs104.seqNoCount
        (Cs104.trySendStep 2 (Cs104.trySendStep 2 (Cs104.trySendStep 2
          (Cs104.initialClientState true [[0x01], [0x02], [0x03]])))).ackNoSend
        (Cs104.trySendStep 2 (Cs104.trySendStep 2 (Cs104.trySendStep 2
          (Cs104.initialClientState true [[0x01], [0x02], [0x03]])))).seqNoSend = 3 := by
  refine ⟨rfl, rfl, rfl, rfl⟩

/-- C9 (counterexample): `Config.Valid` accepts a configuration with
`k = 3` and `w = 30` (all other fields defaulted), for which
`w ≤ ⅔·k` — i.e. `3·w ≤ 2·k` — fails. -/
theorem configValid_accepts_w_above_two_thirds_k :
    Cs104.Config.valid ⟨0, 3, 0, 30, 0, 0⟩ =
      .ok ⟨30 * Cs104.second, 3, 15 * Cs104.second, 30, 10 * Cs104.second,
           20 * Cs104.second⟩
    ∧ ¬ (3 * 30 ≤ 2 * 3) := by
  exact ⟨rfl, by decide⟩

/-- Accepted `checkK` results have `k` in `[1, 32767]`. -/
theorem checkK_ok_bounds {c c' : Cs104.Config} (h : Cs104.checkK c = .ok c') :
    1 ≤ c'.sendUnAckLimitK ∧ c'.sendUnAckLimitK ≤ 32767 := by
  unfold Cs104.checkK at h
  split_ifs at h with h1 h2
  · injection h with h; subst h; simp
  · injection h with h; subst h; omega

/-- Accepted `checkW` results have `w` in `[1, 32767]`; the `k` field is
untouched. -/
theorem checkW_ok_bounds {c c' : Cs104.Config} (h : Cs104.checkW c = .ok c') :
    (1 ≤ c'.recvUnAckLimitW ∧ c'.recvUnAckLimitW ≤ 32767) ∧
      c'.sendUnAckLimitK = c.sendUnAckLimitK := by
  unfold Cs104.checkW at h
  split_ifs at h with h1 h2
  · injection h with h; subst h; simp
  · injection h with h; subst h; simp; omega

/-- `checkT1` only touches the `t₁` field. -/
theorem checkT1_ok_preserves {c c' : Cs104.Config} (h : Cs104.checkT1 c = .ok c') :
    c'.sendUnAckLimitK = c.sendUnAckLimitK ∧
      c'.recvUnAckLimitW = c.recvUnAckLimitW := by
  unfold Cs104.checkT1 at h
  split_ifs at h <;> (injection h with h; subst h; simp)

/-- `checkT2` only touches the `t₂` field. -/
theorem checkT2_ok_preserves {c c' : Cs104.Config} (h : Cs104.checkT2 c = .ok c') :
    c'.sendUnAckLimitK = c.sendUnAckLimitK ∧
      c'.recvUnAckLimitW = c.recvUnAckLimitW := by
  unfold Cs104.checkT2 at h
  split_ifs at h <;> (injection h with h; subst h; simp)

/-- `checkT3` only touches the `t₃` field. -/
theorem checkT3_ok_preserves {c c' : Cs104.Config} (h : Cs104.checkT3 c = .ok c') :
    c'.sendUnAckLimitK = c.sendUnAckLimitK ∧
      c'.recvUnAckLimitW = c.recvUnAckLimitW := by
  unfold Cs104.checkT3 at h
  split_ifs at h <;> (injection h with h; subst h; simp)

/-- C9 (amended): a configuration accepted by `Config.Valid` satisfies,
after defaulting, the per-field bounds `1 ≤ k ≤ 32767` and
`1 ≤ w ≤ 32767`; the relation `w ≤ ⅔·k` is not checked. -/
theorem configValid_bounds_k_w (c c' : Cs104.Config)
    (h : Cs104.Config.valid c = .ok c') :
    1 ≤ c'.sendUnAckLimitK ∧ c'.sendUnAckLimitK ≤ 32767 ∧
      1 ≤ c'.recvUnAckLimitW ∧ c'.recvUnAckLimitW ≤ 32767 := by
  unfold Cs104.Config.valid at h
  cases h0 : Cs104.checkT0 c with
  | error e => simp only [h0] at h; exact Except.noConfusion h
  | ok c1 =>
  simp only [h0] at h
  cases hk : Cs104.checkK c1 with
  | error e => simp only [hk] at h; exact Except.noConfusion h
  | ok c2 =>
  simp only [hk] at h
  cases h1 : Cs104.checkT1 c2 with
  | error e => simp only [h1] at h; exact Except.noConfusion h
  | ok c3 =>
  simp only [h1] at h
  cases hw : Cs104.checkW c3 with
  | error e => simp only [hw] at h; exact Except.noConfusion h
  | ok c4 =>
  simp only [hw] at h
  cases h2 : Cs104.checkT2 c4 with
  | error e => simp only [h2] at h; exact Except.noConfusion h
  | ok c5 =>
  simp only [h2] at h
  obtain ⟨hk1, hk2⟩ := checkK_ok_bounds hk
  obtain ⟨ht1k, ht1w⟩ := checkT1_ok_preserves h1
  obtain ⟨⟨hw1, hw2⟩, hwk⟩ := checkW_ok_bounds hw
  obtain ⟨ht2k, ht2w⟩ := checkT2_ok_preserves h2
  obtain ⟨ht3k, ht3w⟩ := checkT3_ok_preserves h
  omega

/-- C9 (amended, witness): the default configuration is accepted and
the bounds hold for it. -/
theorem configValid_bounds_k_w_witness :
    1 ≤ Cs104.DefaultConfig.sendUnAckLimitK ∧
      Cs104.DefaultConfig.sendUnAckLimitK ≤ 32767 ∧
      1 ≤ Cs104.DefaultConfig.recvUnAckLimitW ∧
      Cs104.DefaultConfig.recvUnAckLimitW ≤ 32767 :=
  configValid_bounds_k_w Cs104.DefaultConfig Cs104.DefaultConfig (by decide)

end GoIecp5

namespace GoIecp5

/-- C6: encoding an ASDU whose cause of transmission is 0 (`Unused`)
always fails with `ErrCauseZero`, and no bytes are produced (the error
result carries none). -/
theorem marshalBinary_rejects_cause_zero (a : ASDU)
    (h : a.identifier.coa.cause = Unused) :
    MarshalBinary a = .error .errCauseZero := by
  unfold MarshalBinary
  rw [if_pos h]

/-- C6 (witness): the scenario-1 ASDU with its cause zeroed out is
rejected. -/
theorem marshalBinary_rejects_cause_zero_witness :
    (⟨ParamsNarrow, ⟨1, ⟨false, 1⟩, ⟨0, false, false⟩, 0, 1⟩, [1, 1]⟩ :
        ASDU).identifier.coa.cause = Unused
    ∧ MarshalBinary ⟨ParamsNarrow, ⟨1, ⟨false, 1⟩, ⟨0, false, false⟩, 0, 1⟩, [1, 1]⟩
        = .error .errCauseZero :=
  ⟨by decide,
   marshalBinary_rejects_cause_zero
     ⟨ParamsNarrow, ⟨1, ⟨false, 1⟩, ⟨0, false, false⟩, 0, 1⟩, [1, 1]⟩ (by decide)⟩

/-- `fixInfoObjSize` never changes the parameters or the identifier of
its argument: it only trims the information object. -/
theorem fixInfoObjSize_ok_shape {x y : ASDU} (h : fixInfoObjSize x = .ok y) :
    y.identifier = x.identifier ∧ y.params = x.params := by
  unfold fixInfoObjSize at h
  cases hg : GetInfoObjSize x.identifier.type with
  | error e => simp only [hg] at h; exact Except.noConfusion h
  | ok s =>
    simp only [hg] at h
    split_ifs at h <;> (injection h with h; subst h; simp)

/-- C5: the common-address codec.  With a 1-octet size, decoding maps
the wire byte 255 to the broadcast address 65535 and encoding rejects
every address that is at least 255 and not the broadcast constant; with
a 2-octet size, decoding and encoding pass the 16-bit value through
little-endian. -/
theorem commonAddr_codec :
    (∀ (p : Params) (raw : List Nat) (a : ASDU),
        UnmarshalBinary p raw = .ok a → p.commonAddrSize = 1 →
        raw.get! (p.identifierSize - 1) = 255 →
        a.identifier.commonAddr = GlobalCommonAddr)
    ∧ (∀ a : ASDU, a.params.commonAddrSize = 1 →
        a.identifier.commonAddr ≠ GlobalCommonAddr →
        255 ≤ a.identifier.commonAddr → (MarshalBinary a).isOk = false)
    ∧ (∀ (p : Params) (raw : List Nat) (a : ASDU),
        UnmarshalBinary p raw = .ok a → p.commonAddrSize = 2 →
        a.identifier.commonAddr =
          raw.get! (p.identifierSize - 2) + 256 * raw.get! (p.identifierSize - 1))
    ∧ (∀ (a : ASDU) (raw : List Nat), a.params.commonAddrSize = 2 →
        a.identifier.commonAddr < 65536 → MarshalBinary a = .ok raw →
        raw.get! (a.params.identifierSize - 2) +
            256 * raw.get! (a.params.identifierSize - 1)
          = a.identifier.commonAddr) := by
  refine ⟨?_, ?_, ?_, ?_⟩
  · intro p raw a h h1 h255
    simp only [UnmarshalBinary] at h
    split_ifs at h <;>
      first
        | exact Except.noConfusion h
        | (obtain ⟨hi, hp⟩ := fixInfoObjSize_ok_shape h; simp_all)
  · intro a h1 hne hge
    unfold MarshalBinary
    split_ifs with c1 c2 c3 c4 c5 c6 <;>
      first
        | rfl
        | exact absurd ⟨h1, hne, hge⟩ c6
  · intro p raw a h h2
    simp only [UnmarshalBinary] at h
    split_ifs at h <;>
      first
        | exact Except.noConfusion h
        | (obtain ⟨hi, hp⟩ := fixInfoObjSize_ok_shape h; simp_all)
  · intro a raw h2 hlt h
    unfold MarshalBinary at h
    split_ifs at h with c1 c2 c3 c4 c5 c6 c7 c8 c9 c10 c11 <;>
      try exact Except.noConfusion h
    all_goals try (exfalso; omega)
    all_goals
      (injection h with h
       subst h
       have hcs : a.params.causeSize = 1 ∨ a.params.causeSize = 2 := by omega
       rcases hcs with hcs | hcs <;>
         [skip; skip] <;>
         simp [hcs, Params.identifierSize, h2, List.get!, byteOf,
               Nat.shiftRight_eq_div_pow] <;>
         omega)
end GoIecp5

namespace GoIecp5

/-- C5 (witness): all four parts of `commonAddr_codec` instantiated —
wire byte 255 decodes to 65535 under a 1-octet size, address 300 is
rejected on encode under a 1-octet size, and 0x1234 passes through a
2-octet decode and encode. -/
theorem commonAddr_codec_witness :
    (⟨⟨1, 1, 1⟩, ⟨1, ⟨false, 1⟩, ⟨3, false, false⟩, 0, 65535⟩, [1, 1]⟩ :
        ASDU).identifier.commonAddr = GlobalCommonAddr
    ∧ (MarshalBinary
        ⟨ParamsNarrow, ⟨1, ⟨false, 1⟩, ⟨3, false, false⟩, 0, 300⟩, [1, 1]⟩).isOk
        = false
    ∧ (⟨⟨1, 2, 1⟩, ⟨1, ⟨false, 1⟩, ⟨3, false, false⟩, 0, 4660⟩, [1, 1]⟩ :
        ASDU).identifier.commonAddr =
        ([1, 1, 3, 0x34, 0x12, 1, 1] : List Nat).get! ((⟨1, 2, 1⟩ : Params).identifierSize - 2) +
          256 * ([1, 1, 3, 0x34, 0x12, 1, 1] : List Nat).get! ((⟨1, 2, 1⟩ : Params).identifierSize - 1)
    ∧ ([1, 1, 3, 52, 18, 1, 1] : List Nat).get!
          ((⟨⟨1, 2, 1⟩, ⟨1, ⟨false, 1⟩, ⟨3, false, false⟩, 0, 0x1234⟩, [1, 1]⟩ :
            ASDU).params.identifierSize - 2) +
        256 * ([1, 1, 3, 52, 18, 1, 1] : List Nat).get!
          ((⟨⟨1, 2, 1⟩, ⟨1, ⟨false, 1⟩, ⟨3, false, false⟩, 0, 0x1234⟩, [1, 1]⟩ :
            ASDU).params.identifierSize - 1)
      = (⟨⟨1, 2, 1⟩, ⟨1, ⟨false, 1⟩, ⟨3, false, false⟩, 0, 0x1234⟩, [1, 1]⟩ :
            ASDU).identifier.commonAddr :=
  ⟨commonAddr_codec.1 ⟨1, 1, 1⟩ [1, 1, 3, 255, 1, 1]
      ⟨⟨1, 1, 1⟩, ⟨1, ⟨false, 1⟩, ⟨3, false, false⟩, 0, 65535⟩, [1, 1]⟩
      (by decide) (by decide) (by decide),
   commonAddr_codec.2.1
      ⟨ParamsNarrow, ⟨1, ⟨false, 1⟩, ⟨3, false, false⟩, 0, 300⟩, [1, 1]⟩
      (by decide) (by decide) (by decide),
   commonAddr_codec.2.2.1 ⟨1, 2, 1⟩ [1, 1, 3, 0x34, 0x12, 1, 1]
      ⟨⟨1, 2, 1⟩, ⟨1, ⟨false, 1⟩, ⟨3, false, false⟩, 0, 4660⟩, [1, 1]⟩
      (by decide) (by decide),
   commonAddr_codec.2.2.2
      ⟨⟨1, 2, 1⟩, ⟨1, ⟨false, 1⟩, ⟨3, false, false⟩, 0, 0x1234⟩, [1, 1]⟩
      [1, 1, 3, 52, 18, 1, 1] (by decide) (by decide) (by decide)⟩

end GoIecp5

namespace GoIecp5

/-- C10: at the decode entry point (`UnmarshalBinary`), once the
parameters pass and the header is present, the information-object bytes
are checked against the size implied by the TypeID, the
variable-structure qualifier and the address width: implied size zero is
an invalid-variable error, too few bytes are an end-of-input error, and
surplus bytes are silently truncated to the implied size (an exact fit
is accepted unchanged). -/
theorem unmarshalBinary_fixes_info_obj_size (p : Params) (raw : List Nat)
    (objSize : Nat)
    (hp : (p.causeSize = 1 ∨ p.causeSize = 2) ∧
      (p.commonAddrSize = 1 ∨ p.commonAddrSize = 2))
    (hlen : p.identifierSize ≤ raw.length)
    (hs : GetInfoObjSize (raw.get! 0) = .ok objSize) :
    (impliedInfoObjSize p (ParseVariableStruct (raw.get! 1)) objSize = 0 →
      UnmarshalBinary p raw = .error .errInfoObjIndexFit)
    ∧ (0 < impliedInfoObjSize p (ParseVariableStruct (raw.get! 1)) objSize →
        raw.length - p.identifierSize <
          impliedInfoObjSize p (ParseVariableStruct (raw.get! 1)) objSize →
        UnmarshalBinary p raw = .error .eof)
    ∧ (0 < impliedInfoObjSize p (ParseVariableStruct (raw.get! 1)) objSize →
        impliedInfoObjSize p (ParseVariableStruct (raw.get! 1)) objSize ≤
          raw.length - p.identifierSize →
        (UnmarshalBinary p raw).map ASDU.infoObj =
          .ok ((raw.drop p.identifierSize).take
            (impliedInfoObjSize p (ParseVariableStruct (raw.get! 1)) objSize))) := by
  have hstep : UnmarshalBinary p raw =
      fixInfoObjSize
        { params := p,
          identifier :=
            { type := raw.get! 0,
              variable' := ParseVariableStruct (raw.get! 1),
              coa := ParseCauseOfTransmission (raw.get! 2),
              origAddr := if p.causeSize = 1 then 0 else raw.get! 3,
              commonAddr :=
                if p.commonAddrSize = 1 then
                  (if raw.get! (p.identifierSize - 1) = 255 then GlobalCommonAddr
                   else raw.get! (p.identifierSize - 1))
                else raw.get! (p.identifierSize - 2) +
                  256 * raw.get! (p.identifierSize - 1) },
          infoObj := raw.drop p.identifierSize } := by
    simp only [UnmarshalBinary]
    rw [if_neg (by tauto), if_neg (by omega)]
  rw [hstep]
  unfold fixInfoObjSize
  simp only [hs]
  have hdroplen : (raw.drop p.identifierSize).length = raw.length - p.identifierSize :=
    List.length_drop _ _
  refine ⟨?_, ?_, ?_⟩
  · intro h0
    rw [if_pos h0]
  · intro hpos hshort
    rw [if_neg (by omega), if_pos (by omega)]
  · intro hpos hfit
    rw [if_neg (by omega), if_neg (by omega)]
    by_cases hless : impliedInfoObjSize p (ParseVariableStruct (raw.get! 1)) objSize <
        (raw.drop p.identifierSize).length
    · rw [if_pos hless]
      rfl
    · rw [if_neg hless]
      have hEq : impliedInfoObjSize p (ParseVariableStruct (raw.get! 1)) objSize =
          (raw.drop p.identifierSize).length := by omega
      simp [Except.map, hEq, List.take_length]
      simp only [List.get!_eq_getElem!] at hEq
      omega

/-- C10 (witness): narrow parameters, `M_SP_NA_1` (element size 1),
three header-plus-payload shapes — two surplus bytes truncated, a
missing byte rejected with `eof`, and a zero variable count rejected
with the invalid-variable error. -/
theorem unmarshalBinary_fixes_info_obj_size_witness :
    (UnmarshalBinary ParamsNarrow [1, 1, 3, 1, 1, 1, 9, 9]).map ASDU.infoObj =
      .ok [1, 1]
    ∧ UnmarshalBinary ParamsNarrow [1, 2, 3, 1, 1, 1] = .error .eof
    ∧ UnmarshalBinary ParamsNarrow [1, 0, 3, 1, 1, 1] = .error .errInfoObjIndexFit := by
  refine ⟨?_, ?_, ?_⟩
  · have h := (unmarshalBinary_fixes_info_obj_size ParamsNarrow [1, 1, 3, 1, 1, 1, 9, 9]
      1 (by decide) (by decide) (by decide)).2.2 (by decide) (by decide)
    simpa using h
  · exact (unmarshalBinary_fixes_info_obj_size ParamsNarrow [1, 2, 3, 1, 1, 1]
      1 (by decide) (by decide) (by decide)).2.1 (by decide) (by decide)
  · exact (unmarshalBinary_fixes_info_obj_size ParamsNarrow [1, 0, 3, 1, 1, 1]
      1 (by decide) (by decide) (by decide)).1 (by decide)

end GoIecp5

namespace GoIecp5

/-- C4: for every TypeID outside the supported switch (unsupported or
private), `ParseASDU` succeeds — it is not an error — and returns the
`UnknownMsg` variant, whose header carries the raw information-object
bytes of the ASDU unchanged. -/
theorem parseASDU_unknown_type_not_error (a : ASDU) (now : GoTime)
    (h : supportedTypeID a.identifier.type = false) :
    ParseASDU a now = .ok ⟨true, .unknown (headerOf a)⟩
    ∧ (headerOf a).rawInfoObj = a.infoObj := by
  refine ⟨?_, rfl⟩
  simp only [supportedTypeID] at h
  obtain ⟨h, g32⟩ := Bool.or_eq_false_iff.mp h
  obtain ⟨h, g31⟩ := Bool.or_eq_false_iff.mp h
  obtain ⟨h, g30⟩ := Bool.or_eq_false_iff.mp h
  obtain ⟨h, g29⟩ := Bool.or_eq_false_iff.mp h
  obtain ⟨h, g28⟩ := Bool.or_eq_false_iff.mp h
  obtain ⟨h, g27⟩ := Bool.or_eq_false_iff.mp h
  obtain ⟨h, g26⟩ := Bool.or_eq_false_iff.mp h
  obtain ⟨h, g25⟩ := Bool.or_eq_false_iff.mp h
  obtain ⟨h, g24⟩ := Bool.or_eq_false_iff.mp h
  obtain ⟨h, g23⟩ := Bool.or_eq_false_iff.mp h
  obtain ⟨h, g22⟩ := Bool.or_eq_false_iff.mp h
  obtain ⟨h, g21⟩ := Bool.or_eq_false_iff.mp h
  obtain ⟨h, g20⟩ := Bool.or_eq_false_iff.mp h
  obtain ⟨h, g19⟩ := Bool.or_eq_false_iff.mp h
  obtain ⟨h, g18⟩ := Bool.or_eq_false_iff.mp h
  obtain ⟨h, g17⟩ := Bool.or_eq_false_iff.mp h
  obtain ⟨h, g16⟩ := Bool.or_eq_false_iff.mp h
  obtain ⟨h, g15⟩ := Bool.or_eq_false_iff.mp h
  obtain ⟨h, g14⟩ := Bool.or_eq_false_iff.mp h
  obtain ⟨h, g13⟩ := Bool.or_eq_false_iff.mp h
  obtain ⟨h, g12⟩ := Bool.or_eq_false_iff.mp h
  obtain ⟨h, g11⟩ := Bool.or_eq_false_iff.mp h
  obtain ⟨h, g10⟩ := Bool.or_eq_false_iff.mp h
  obtain ⟨h, g9⟩ := Bool.or_eq_false_iff.mp h
  obtain ⟨h, g8⟩ := Bool.or_eq_false_iff.mp h
  obtain ⟨h, g7⟩ := Bool.or_eq_false_iff.mp h
  obtain ⟨h, g6⟩ := Bool.or_eq_false_iff.mp h
  obtain ⟨h, g5⟩ := Bool.or_eq_false_iff.mp h
  obtain ⟨h, g4⟩ := Bool.or_eq_false_iff.mp h
  obtain ⟨h, g3⟩ := Bool.or_eq_false_iff.mp h
  obtain ⟨g1, g2⟩ := Bool.or_eq_false_iff.mp h
  unfold ParseASDU parseDispatch
  rw [if_neg (by simp [g1])]
  rw [if_neg (by simp [g2])]
  rw [if_neg (by simp [g3])]
  rw [if_neg (by simp [g4])]
  rw [if_neg (by simp [g5])]
  rw [if_neg (by simp [g6])]
  rw [if_neg (by simp [g7])]
  rw [if_neg (by simp [g8])]
  rw [if_neg (by simp [g9])]
  rw [if_neg (by simp [g10])]
  rw [if_neg (by simp [g11])]
  rw [if_neg (by simp [g12])]
  rw [if_neg (by simp [g13])]
  rw [if_neg (by simp [g14])]
  rw [if_neg (by simp [g15])]
  rw [if_neg (by simp [g16])]
  rw [if_neg (by simp [g17])]
  rw [if_neg (by simp [g18])]
  rw [if_neg (by simp [g19])]
  rw [if_neg (by simp [g20])]
  rw [if_neg (by simp [g21])]
  rw [if_neg (by simp [g22])]
  rw [if_neg (by simp [g23])]
  rw [if_neg (by simp [g24])]
  rw [if_neg (by simp [g25])]
  rw [if_neg (by simp [g26])]
  rw [if_neg (by simp [g27])]
  rw [if_neg (by simp [g28])]
  rw [if_neg (by simp [g29])]
  rw [if_neg (by simp [g30])]
  rw [if_neg (by simp [g31])]
  rw [if_neg (by simp [g32])]

/-- C4 (witness): a private TypeID (200) with arbitrary payload parses
to `UnknownMsg` preserving the payload. -/
theorem parseASDU_unknown_type_not_error_witness :
    ParseASDU ⟨ParamsNarrow, ⟨200, ⟨false, 1⟩, ⟨3, false, false⟩, 0, 1⟩, [7, 8, 9]⟩
        ⟨2025, 1, 1, 0, 0, 0, 0⟩ =
      .ok ⟨true, .unknown (headerOf
        ⟨ParamsNarrow, ⟨200, ⟨false, 1⟩, ⟨3, false, false⟩, 0, 1⟩, [7, 8, 9]⟩)⟩
    ∧ (headerOf
        ⟨ParamsNarrow, ⟨200, ⟨false, 1⟩, ⟨3, false, false⟩, 0, 1⟩, [7, 8, 9]⟩).rawInfoObj
      = [7, 8, 9] :=
  ⟨(parseASDU_unknown_type_not_error
      ⟨ParamsNarrow, ⟨200, ⟨false, 1⟩, ⟨3, false, false⟩, 0, 1⟩, [7, 8, 9]⟩
      ⟨2025, 1, 1, 0, 0, 0, 0⟩ (by decide)).1,
   by decide⟩

end GoIecp5

namespace GoIecp5

/-- Bit-mask facts for bytes, checked by enumeration. -/
theorem land_128_eq_zero : ∀ x : Nat, x < 128 → x &&& 128 = 0 := by decide

theorem land_63_id : ∀ x : Nat, x < 64 → x &&& 63 = x := by decide

theorem land_31_id : ∀ x : Nat, x < 32 → x &&& 31 = x := by decide

theorem land_15_id : ∀ x : Nat, x < 16 → x &&& 15 = x := by decide

theorem land_127_id : ∀ x : Nat, x < 128 → x &&& 127 = x := by decide

/-- The day-of-month bits survive the day-of-week bits packed above
them. -/
theorem weekday_day_mask : ∀ w : Nat, w < 7 → ∀ d : Nat, d < 32 →
    ((w <<< 5) % 256 ||| d) &&& 31 = d := by decide

/-- `weekdayOf` is a weekday. -/
theorem weekdayOf_lt_7 (t : GoTime) : weekdayOf t < 7 := by
  unfold weekdayOf
  have h7 : (0 : Int) < 7 := by norm_num
  have := Int.emod_lt_of_pos (daysFromCivil t.year t.month t.day + 4) h7
  have := Int.emod_nonneg (daysFromCivil t.year t.month t.day + 4) (by norm_num : (7 : Int) ≠ 0)
  omega

/-- C7: CP56Time2a round-trip — for every wall-clock time representable
in the encoding (year 2000..2099, valid calendar fields, millisecond
precision), decoding the 7-octet encoding yields the same time, with
the nanoseconds truncated to the millisecond. -/
theorem parseCP56_CP56_roundtrip (t : GoTime)
    (hyear : 2000 ≤ t.year ∧ t.year ≤ 2099)
    (hmonth : 1 ≤ t.month ∧ t.month ≤ 12)
    (hday : 1 ≤ t.day ∧ t.day ≤ 31)
    (hhour : t.hour ≤ 23) (hmin : t.minute ≤ 59) (hsec : t.sec ≤ 59)
    (hns : t.nsec < 1000000000) :
    ParseCP56Time2a (CP56Time2a t) =
      { t with nsec := t.nsec / 1000000 * 1000000 } := by
  have hms : t.nsec / 1000000 + t.sec * 1000 < 60000 := by omega
  unfold CP56Time2a ParseCP56Time2a
  simp only [List.get!, List.length]
  have hminb : byteOf t.minute = t.minute := Nat.mod_eq_of_lt (by omega)
  rw [if_neg (by
    rw [hminb, land_128_eq_zero t.minute (by omega)]
    omega)]
  have hb0 : byteOf (t.nsec / 1000000 + t.sec * 1000) =
      (t.nsec / 1000000 + t.sec * 1000) % 256 := rfl
  have hb1 : byteOf ((t.nsec / 1000000 + t.sec * 1000) >>> 8) =
      (t.nsec / 1000000 + t.sec * 1000) / 256 := by
    unfold byteOf
    rw [Nat.shiftRight_eq_div_pow]
    have : (t.nsec / 1000000 + t.sec * 1000) / 2 ^ 8 < 256 := by omega
    omega
  rw [hb0, hb1, hminb]
  have hx : (t.nsec / 1000000 + t.sec * 1000) % 256 +
      256 * ((t.nsec / 1000000 + t.sec * 1000) / 256) =
      t.nsec / 1000000 + t.sec * 1000 := by omega
  rw [hx]
  have hhourb : byteOf t.hour = t.hour := Nat.mod_eq_of_lt (by omega)
  have hmonthb : byteOf t.month = t.month := Nat.mod_eq_of_lt (by omega)
  have hdayb : byteOf t.day = t.day := Nat.mod_eq_of_lt (by omega)
  have hyearb : byteOfInt ((t.year : Int) - 2000) = t.year - 2000 := by
    unfold byteOfInt
    have h1 : ((t.year : Int) - 2000) % 256 = (t.year : Int) - 2000 := by
      apply Int.emod_eq_of_lt <;> omega
    rw [h1]
    omega
  rw [hhourb, hmonthb, hdayb, hyearb]
  rw [land_63_id t.minute (by omega), land_31_id t.hour (by omega),
      land_15_id t.month (by omega), land_127_id (t.year - 2000) (by omega)]
  rw [show byteOf (weekdayOf t <<< 5) = (weekdayOf t <<< 5) % 256 from rfl]
  rw [hdayb] at *
  rw [weekday_day_mask (weekdayOf t) (weekdayOf_lt_7 t) t.day (by omega)]
  unfold timeDate
  have h1 : (t.nsec / 1000000 + t.sec * 1000) % 1000 = t.nsec / 1000000 := by
    omega
  have h2 : (t.nsec / 1000000 + t.sec * 1000) / 1000 = t.sec := by omega
  rw [h1, h2]
  have h3 : 2000 + (t.year - 2000) = t.year := by omega
  rw [h3]

/-- C7 (witness): a concrete time survives the round trip. -/
theorem parseCP56_CP56_roundtrip_witness :
    ParseCP56Time2a (CP56Time2a ⟨2024, 5, 17, 12, 34, 56, 789654321⟩) =
      { (⟨2024, 5, 17, 12, 34, 56, 789654321⟩ : GoTime) with
        nsec := 789654321 / 1000000 * 1000000 } :=
  parseCP56_CP56_roundtrip ⟨2024, 5, 17, 12, 34, 56, 789654321⟩
    (by decide) (by decide) (by decide) (by decide) (by decide) (by decide)
    (by decide)

end GoIecp5

namespace GoIecp5

/-- Masking an even byte-sized value with `0xFE` is its low byte. -/
theorem two_mul_land_254 (x : Nat) : (2 * x) &&& 254 = (2 * x) % 256 := by
  apply Nat.eq_of_testBit_eq
  intro i
  rw [Nat.testBit_and]
  rw [show (256 : Nat) = 2 ^ 8 from rfl, Nat.testBit_mod_two_pow]
  rcases i with _ | i
  · simp [Nat.testBit_zero, Nat.mul_mod_right]
  · by_cases hi : i < 7
    · interval_cases i <;> simp <;> exact fun _ => by decide
    · have h254 : (254 : Nat).testBit (i + 1) = false := by
        apply Nat.testBit_eq_false_of_lt
        calc (254 : Nat) < 2 ^ 8 := by norm_num
        _ ≤ 2 ^ (i + 1) := Nat.pow_le_pow_right (by norm_num) (by omega)
      simp [h254, show ¬(i + 1 < 8) by omega]

/-- C8: the I-frame codec round-trips.  For sequence numbers below
2¹⁵ and a payload of 1..249 bytes, `newIFrame` emits exactly the control
octets `send_seq<<1 & 0xFE`, `send_seq>>7`, `recv_seq<<1 & 0xFE`,
`recv_seq>>7` after the start and length octets, and `parse` returns an
I-frame with the same two sequence numbers and the same payload. -/
theorem newIFrame_parse_roundtrip (s r : Nat) (payload : List Nat)
    (hs : s < 32768) (hr : r < 32768)
    (hlen1 : 1 ≤ payload.length) (hlen2 : payload.length ≤ 249) :
    Cs104.newIFrame s r payload =
      .ok ([0x68, payload.length + 4, (s <<< 1) &&& 0xfe, s >>> 7,
            (r <<< 1) &&& 0xfe, r >>> 7] ++ payload)
    ∧ Cs104.parse ([0x68, payload.length + 4, (s <<< 1) &&& 0xfe, s >>> 7,
            (r <<< 1) &&& 0xfe, r >>> 7] ++ payload) = (.i s r, payload) := by
  have hsh : ∀ x : Nat, x <<< 1 = 2 * x := fun x => by
    rw [Nat.shiftLeft_eq]; ring
  have hctrl : ∀ x : Nat, x < 32768 →
      byteOf ((x <<< 1) % 65536) = (x <<< 1) &&& 0xfe := by
    intro x hx
    rw [hsh x, Nat.mod_eq_of_lt (show 2 * x < 65536 by omega), two_mul_land_254]
    rfl
  have hhi : ∀ x : Nat, x < 32768 → byteOf (x >>> 7) = x >>> 7 := by
    intro x hx
    unfold byteOf
    rw [Nat.shiftRight_eq_div_pow]
    exact Nat.mod_eq_of_lt (by omega)
  constructor
  · unfold Cs104.newIFrame
    rw [if_neg (by simp [Cs104.ASDUSizeMax]; omega)]
    rw [hctrl s hs, hctrl r hr, hhi s hs, hhi r hr]
    rw [show byteOf (payload.length + 4) = payload.length + 4 from
      Nat.mod_eq_of_lt (by omega)]
    rw [show Cs104.startFrame = 0x68 from rfl]
  · unfold Cs104.parse
    simp only [List.cons_append, List.nil_append, List.get!]
    have hbit0 : ((s <<< 1) &&& 0xfe) &&& 0x01 = 0 := by
      rw [Nat.land_assoc]
      simp
    rw [if_pos hbit0]
    have hrec : ∀ x : Nat, x < 32768 →
        (((x <<< 1) &&& 0xfe) >>> 1) + ((x >>> 7) <<< 7) = x := by
      intro x hx
      rw [hsh x, two_mul_land_254]
      rw [Nat.shiftRight_eq_div_pow, Nat.shiftRight_eq_div_pow,
          Nat.shiftLeft_eq]
      have h1 : 2 * x % 256 = 2 * (x % 128) := by omega
      rw [h1]
      have h2 : 2 * (x % 128) / 2 ^ 1 = x % 128 := by omega
      rw [h2]
      have h3 : x / 2 ^ 7 * 2 ^ 7 = x - x % 128 := by omega
      omega
    rw [hrec s hs, hrec r hr]
    simp

/-- C8 (witness): sequence numbers 300 and 5 with a three-byte
payload. -/
theorem newIFrame_parse_roundtrip_witness :
    Cs104.newIFrame 300 5 [9, 8, 7] =
      .ok ([0x68, 3 + 4, (300 <<< 1) &&& 0xfe, 300 >>> 7,
            (5 <<< 1) &&& 0xfe, 5 >>> 7] ++ [9, 8, 7])
    ∧ Cs104.parse ([0x68, 3 + 4, (300 <<< 1) &&& 0xfe, 300 >>> 7,
            (5 <<< 1) &&& 0xfe, 5 >>> 7] ++ [9, 8, 7]) = (.i 300 5, [9, 8, 7]) := by
  have h := newIFrame_parse_roundtrip 300 5 [9, 8, 7]
    (by decide) (by decide) (by decide) (by decide)
  simpa using h

end GoIecp5

namespace GoIecp5

/-- `ParseCP24Time2a` reads only the date and the hour from the current
clock. -/
theorem parseCP24_dateHour {n1 n2 : GoTime} (h : dateHourEq n1 n2)
    (bs : List Nat) : ParseCP24Time2a bs n1 = ParseCP24Time2a bs n2 := by
  obtain ⟨h1, h2, h3, h4⟩ := h
  unfold ParseCP24Time2a
  rw [h1, h2, h3, h4]

/-- Cursor form of `parseCP24_dateHour`. -/
theorem readCP24_dateHour {n1 n2 : GoTime} (h : dateHourEq n1 n2)
    (d : DecodeCursor) :
    d.readCP24Time2a n1 = d.readCP24Time2a n2 := by
  unfold DecodeCursor.readCP24Time2a
  cases d.read 3 with
  | error e => rfl
  | ok v =>
    obtain ⟨b, d'⟩ := v
    dsimp only
    rw [parseCP24_dateHour h b]

/-- The single-point item loop depends on the clock only through the
date and the hour. -/
theorem parseSinglePointItems_dateHour (p : Params) (t : Nat) (isSeq : Bool)
    {n1 n2 : GoTime} (h : dateHourEq n1 n2) :
    ∀ (n : Nat) (once : Bool) (ioa : Nat) (cur : DecodeCursor),
      parseSinglePointItems p t isSeq n1 n once ioa cur
        = parseSinglePointItems p t isSeq n2 n once ioa cur := by
  intro n
  induction n with
  | zero => intro once ioa cur; rfl
  | succ k ih =>
    intro once ioa cur
    simp only [parseSinglePointItems]
    cases hA : nextIoa p isSeq once ioa cur with
    | error e => rfl
    | ok v =>
      obtain ⟨ioa1, cur1⟩ := v
      dsimp only
      cases hB : cur1.readByte with
      | error e => rfl
      | ok vb =>
        obtain ⟨value, cur2⟩ := vb
        dsimp only
        rw [readCP24_dateHour h cur2]
        cases hC : (if t == M_SP_NA_1 then .ok (zeroTime, cur2)
                    else if t == M_SP_TA_1 then cur2.readCP24Time2a n2
                    else if t == M_SP_TB_1 then cur2.readCP56Time2a
                    else .error .errTypeIDNotMatch :
                      Except PError (GoTime × DecodeCursor)) with
        | error e => rfl
        | ok vt =>
          obtain ⟨tm, cur3⟩ := vt
          dsimp only
          rw [ih true ioa1 cur3]

end GoIecp5

namespace GoIecp5

/-- The double-point item loop depends on the clock only through the
date and the hour. -/
theorem parseDoublePointItems_dateHour (p : Params) (t : Nat) (isSeq : Bool)
    {n1 n2 : GoTime} (h : dateHourEq n1 n2) :
    ∀ (n : Nat) (once : Bool) (ioa : Nat) (cur : DecodeCursor),
      parseDoublePointItems p t isSeq n1 n once ioa cur
        = parseDoublePointItems p t isSeq n2 n once ioa cur := by
  intro n
  induction n with
  | zero => intro once ioa cur; rfl
  | succ k ih =>
    intro once ioa cur
    simp only [parseDoublePointItems]
    cases hA : nextIoa p isSeq once ioa cur with
    | error e => rfl
    | ok v =>
      obtain ⟨ioa1, cur1⟩ := v
      dsimp only
      cases hB : cur1.readByte with
      | error e => rfl
      | ok vb =>
        obtain ⟨value, cur2⟩ := vb
        dsimp only
        rw [readCP24_dateHour h cur2]
        cases hC : (if t == M_DP_NA_1 then .ok (zeroTime, cur2)
                    else if t == M_DP_TA_1 then cur2.readCP24Time2a n2
                    else if t == M_DP_TB_1 then cur2.readCP56Time2a
                    else .error .errTypeIDNotMatch :
                      Except PError (GoTime × DecodeCursor)) with
        | error e => rfl
        | ok vt =>
          obtain ⟨tm, cur3⟩ := vt
          dsimp only
          rw [ih true ioa1 cur3]

/-- The step-position item loop depends on the clock only through the
date and the hour. -/
theorem parseStepPositionItems_dateHour (p : Params) (t : Nat) (isSeq : Bool)
    {n1 n2 : GoTime} (h : dateHourEq n1 n2) :
    ∀ (n : Nat) (once : Bool) (ioa : Nat) (cur : DecodeCursor),
      parseStepPositionItems p t isSeq n1 n once ioa cur
        = parseStepPositionItems p t isSeq n2 n once ioa cur := by
  intro n
  induction n with
  | zero => intro once ioa cur; rfl
  | succ k ih =>
    intro once ioa cur
    simp only [parseStepPositionItems]
    cases hA : nextIoa p isSeq once ioa cur with
    | error e => rfl
    | ok v =>
      obtain ⟨ioa1, cur1⟩ := v
      dsimp only
      cases hB : cur1.readByte with
      | error e => rfl
      | ok vb =>
        obtain ⟨value, cur2⟩ := vb
        dsimp only
        cases hB2 : cur2.readByte with
        | error e => rfl
        | ok vb2 =>
          obtain ⟨value2, cur3⟩ := vb2
          dsimp only
          rw [readCP24_dateHour h cur3]
          cases hC : (if t == M_ST_NA_1 then .ok (zeroTime, cur3)
                      else if t == M_ST_TA_1 then cur3.readCP24Time2a n2
                      else if t == M_ST_TB_1 then cur3.readCP56Time2a
                      else .error .errTypeIDNotMatch :
                        Except PError (GoTime × DecodeCursor)) with
          | error e => rfl
          | ok vt =>
            obtain ⟨tm, cur4⟩ := vt
            dsimp only
            rw [ih true ioa1 cur4]

/-- The bitstring item loop depends on the clock only through the date
and the hour. -/
theorem parseBitString32Items_dateHour (p : Params) (t : Nat) (isSeq : Bool)
    {n1 n2 : GoTime} (h : dateHourEq n1 n2) :
    ∀ (n : Nat) (once : Bool) (ioa : Nat) (cur : DecodeCursor),
      parseBitString32Items p t isSeq n1 n once ioa cur
        = parseBitString32Items p t isSeq n2 n once ioa cur := by
  intro n
  induction n with
  | zero => intro once ioa cur; rfl
  | succ k ih =>
    intro once ioa cur
    simp only [parseBitString32Items]
    cases hA : nextIoa p isSeq once ioa cur with
    | error e => rfl
    | ok v =>
      obtain ⟨ioa1, cur1⟩ := v
      dsimp only
      cases hB : cur1.readBitsString32 with
      | error e => rfl
      | ok vb =>
        obtain ⟨value, cur2⟩ := vb
        dsimp only
        cases hB2 : cur2.readByte with
        | error e => rfl
        | ok vb2 =>
          obtain ⟨value2, cur3⟩ := vb2
          dsimp only
          rw [readCP24_dateHour h cur3]
          cases hC : (if t == M_BO_NA_1 then .ok (zeroTime, cur3)
                      else if t == M_BO_TA_1 then cur3.readCP24Time2a n2
                      else if t == M_BO_TB_1 then cur3.readCP56Time2a
                      else .error .errTypeIDNotMatch :
                        Except PError (GoTime × DecodeCursor)) with
          | error e => rfl
          | ok vt =>
            obtain ⟨tm, cur4⟩ := vt
            dsimp only
            rw [ih true ioa1 cur4]

/-- The scaled measured-value item loop depends on the clock only
through the date and the hour. -/
theorem parseMeasuredValueScaledItems_dateHour (p : Params) (t : Nat) (isSeq : Bool)
    {n1 n2 : GoTime} (h : dateHourEq n1 n2) :
    ∀ (n : Nat) (once : Bool) (ioa : Nat) (cur : DecodeCursor),
      parseMeasuredValueScaledItems p t isSeq n1 n once ioa cur
        = parseMeasuredValueScaledItems p t isSeq n2 n once ioa cur := by
  intro n
  induction n with
  | zero => intro once ioa cur; rfl
  | succ k ih =>
    intro once ioa cur
    simp only [parseMeasuredValueScaledItems]
    cases hA : nextIoa p isSeq once ioa cur with
    | error e => rfl
    | ok v =>
      obtain ⟨ioa1, cur1⟩ := v
      dsimp only
      cases hB : cur1.readScaled with
      | error e => rfl
      | ok vb =>
        obtain ⟨value, cur2⟩ := vb
        dsimp only
        cases hB2 : cur2.readByte with
        | error e => rfl
        | ok vb2 =>
          obtain ⟨value2, cur3⟩ := vb2
          dsimp only
          rw [readCP24_dateHour h cur3]
          cases hC : (if t == M_ME_NB_1 then .ok (zeroTime, cur3)
                      else if t == M_ME_TB_1 then cur3.readCP24Time2a n2
                      else if t == M_ME_TE_1 then cur3.readCP56Time2a
                      else .error .errTypeIDNotMatch :
                        Except PError (GoTime × DecodeCursor)) with
          | error e => rfl
          | ok vt =>
            obtain ⟨tm, cur4⟩ := vt
            dsimp only
            rw [ih true ioa1 cur4]

/-- The float measured-value item loop depends on the clock only
through the date and the hour. -/
theorem parseMeasuredValueFloatItems_dateHour (p : Params) (t : Nat) (isSeq : Bool)
    {n1 n2 : GoTime} (h : dateHourEq n1 n2) :
    ∀ (n : Nat) (once : Bool) (ioa : Nat) (cur : DecodeCursor),
      parseMeasuredValueFloatItems p t isSeq n1 n once ioa cur
        = parseMeasuredValueFloatItems p t isSeq n2 n once ioa cur := by
  intro n
  induction n with
  | zero => intro once ioa cur; rfl
  | succ k ih =>
    intro once ioa cur
    simp only [parseMeasuredValueFloatItems]
    cases hA : nextIoa p isSeq once ioa cur with
    | error e => rfl
    | ok v =>
      obtain ⟨ioa1, cur1⟩ := v
      dsimp only
      cases hB : cur1.readFloat32 with
      | error e => rfl
      | ok vb =>
        obtain ⟨value, cur2⟩ := vb
        dsimp only
        cases hB2 : cur2.readByte with
        | error e => rfl
        | ok vb2 =>
          obtain ⟨value2, cur3⟩ := vb2
          dsimp only
          rw [readCP24_dateHour h cur3]
          cases hC : (if t == M_ME_NC_1 then .ok (zeroTime, cur3)
                      else if t == M_ME_TC_1 then cur3.readCP24Time2a n2
                      else if t == M_ME_TF_1 then cur3.readCP56Time2a
                      else .error .errTypeIDNotMatch :
                        Except PError (GoTime × DecodeCursor)) with
          | error e => rfl
          | ok vt =>
            obtain ⟨tm, cur4⟩ := vt
            dsimp only
            rw [ih true ioa1 cur4]

/-- The integrated-totals item loop depends on the clock only through
the date and the hour. -/
theorem parseIntegratedTotalsItems_dateHour (p : Params) (t : Nat) (isSeq : Bool)
    {n1 n2 : GoTime} (h : dateHourEq n1 n2) :
    ∀ (n : Nat) (once : Bool) (ioa : Nat) (cur : DecodeCursor),
      parseIntegratedTotalsItems p t isSeq n1 n once ioa cur
        = parseIntegratedTotalsItems p t isSeq n2 n once ioa cur := by
  intro n
  induction n with
  | zero => intro once ioa cur; rfl
  | succ k ih =>
    intro once ioa cur
    simp only [parseIntegratedTotalsItems]
    cases hA : nextIoa p isSeq once ioa cur with
    | error e => rfl
    | ok v =>
      obtain ⟨ioa1, cur1⟩ := v
      dsimp only
      cases hB : cur1.readBinaryCounterReading with
      | error e => rfl
      | ok vb =>
        obtain ⟨value, cur2⟩ := vb
        dsimp only
        rw [readCP24_dateHour h cur2]
        cases hC : (if t == M_IT_NA_1 then .ok (zeroTime, cur2)
                    else if t == M_IT_TA_1 then cur2.readCP24Time2a n2
                    else if t == M_IT_TB_1 then cur2.readCP56Time2a
                    else .error .errTypeIDNotMatch :
                      Except PError (GoTime × DecodeCursor)) with
        | error e => rfl
        | ok vt =>
          obtain ⟨tm, cur3⟩ := vt
          dsimp only
          rw [ih true ioa1 cur3]

/-- The protection-event item loop depends on the clock only through
the date and the hour. -/
theorem parseEventOfProtectionItems_dateHour (p : Params) (t : Nat) (isSeq : Bool)
    {n1 n2 : GoTime} (h : dateHourEq n1 n2) :
    ∀ (n : Nat) (once : Bool) (ioa : Nat) (cur : DecodeCursor),
      parseEventOfProtectionItems p t isSeq n1 n once ioa cur
        = parseEventOfProtectionItems p t isSeq n2 n once ioa cur := by
  intro n
  induction n with
  | zero => intro once ioa cur; rfl
  | succ k ih =>
    intro once ioa cur
    simp only [parseEventOfProtectionItems]
    cases hA : nextIoa p isSeq once ioa cur with
    | error e => rfl
    | ok v =>
      obtain ⟨ioa1, cur1⟩ := v
      dsimp only
      cases hB : cur1.readByte with
      | error e => rfl
      | ok vb =>
        obtain ⟨value, cur2⟩ := vb
        dsimp only
        cases hB2 : cur2.readCP16Time2a with
        | error e => rfl
        | ok vb2 =>
          obtain ⟨msec, cur3⟩ := vb2
          dsimp only
          rw [readCP24_dateHour h cur3]
          cases hC : (if t == M_EP_TA_1 then cur3.readCP24Time2a n2
                      else if t == M_EP_TD_1 then cur3.readCP56Time2a
                      else .error .errTypeIDNotMatch :
                        Except PError (GoTime × DecodeCursor)) with
          | error e => rfl
          | ok vt =>
            obtain ⟨tm, cur4⟩ := vt
            dsimp only
            rw [ih true ioa1 cur4]

/-- The normalized measured-value item loop depends on the clock only
through the date and the hour. -/
theorem parseMeasuredValueNormalItems_dateHour (p : Params) (t : Nat)
    (isSeq : Bool) {n1 n2 : GoTime} (h : dateHourEq n1 n2) :
    ∀ (n : Nat) (once : Bool) (ioa : Nat) (cur : DecodeCursor),
      parseMeasuredValueNormalItems p t isSeq n1 n once ioa cur
        = parseMeasuredValueNormalItems p t isSeq n2 n once ioa cur := by
  intro n
  induction n with
  | zero => intro once ioa cur; rfl
  | succ k ih =>
    intro once ioa cur
    simp only [parseMeasuredValueNormalItems]
    cases hA : nextIoa p isSeq once ioa cur with
    | error e => rfl
    | ok v =>
      obtain ⟨ioa1, cur1⟩ := v
      dsimp only
      cases hB : cur1.readNormalize with
      | error e => rfl
      | ok vb =>
        obtain ⟨value, cur2⟩ := vb
        dsimp only
        have hT :
            ((if t == M_ME_NA_1 then
                 match cur2.readByte with
                 | .error e => .error e
                 | .ok (b, cur) => .ok (b, zeroTime, cur)
               else if t == M_ME_TA_1 then
                 match cur2.readByte with
                 | .error e => .error e
                 | .ok (b, cur) =>
                   match cur.readCP24Time2a n1 with
                   | .error e => .error e
                   | .ok (tm, cur) => .ok (b, tm, cur)
               else if t == M_ME_TD_1 then
                 match cur2.readByte with
                 | .error e => .error e
                 | .ok (b, cur) =>
                   match cur.readCP56Time2a with
                   | .error e => .error e
                   | .ok (tm, cur) => .ok (b, tm, cur)
               else if t == M_ME_ND_1 then .ok (0, zeroTime, cur2)
               else .error .errTypeIDNotMatch :
                 Except PError (Nat × GoTime × DecodeCursor))) =
            ((if t == M_ME_NA_1 then
                 match cur2.readByte with
                 | .error e => .error e
                 | .ok (b, cur) => .ok (b, zeroTime, cur)
               else if t == M_ME_TA_1 then
                 match cur2.readByte with
                 | .error e => .error e
                 | .ok (b, cur) =>
                   match cur.readCP24Time2a n2 with
                   | .error e => .error e
                   | .ok (tm, cur) => .ok (b, tm, cur)
               else if t == M_ME_TD_1 then
                 match cur2.readByte with
                 | .error e => .error e
                 | .ok (b, cur) =>
                   match cur.readCP56Time2a with
                   | .error e => .error e
                   | .ok (tm, cur) => .ok (b, tm, cur)
               else if t == M_ME_ND_1 then .ok (0, zeroTime, cur2)
               else .error .errTypeIDNotMatch :
                 Except PError (Nat × GoTime × DecodeCursor))) := by
          split_ifs <;> try rfl
          cases hb : cur2.readByte with
          | error e => rfl
          | ok vb2 =>
            obtain ⟨b, cur3⟩ := vb2
            dsimp only
            rw [readCP24_dateHour h cur3]
        rw [hT]
        cases hC : ((if t == M_ME_NA_1 then
                 match cur2.readByte with
                 | .error e => .error e
                 | .ok (b, cur) => .ok (b, zeroTime, cur)
               else if t == M_ME_TA_1 then
                 match cur2.readByte with
                 | .error e => .error e
                 | .ok (b, cur) =>
                   match cur.readCP24Time2a n2 with
                   | .error e => .error e
                   | .ok (tm, cur) => .ok (b, tm, cur)
               else if t == M_ME_TD_1 then
                 match cur2.readByte with
                 | .error e => .error e
                 | .ok (b, cur) =>
                   match cur.readCP56Time2a with
                   | .error e => .error e
                   | .ok (tm, cur) => .ok (b, tm, cur)
               else if t == M_ME_ND_1 then .ok (0, zeroTime, cur2)
               else .error .errTypeIDNotMatch :
                 Except PError (Nat × GoTime × DecodeCursor))) with
        | error e => rfl
        | ok vt =>
          obtain ⟨qds, tm, cur3⟩ := vt
          dsimp only
          rw [ih true ioa1 cur3]

/-- The packed start-events single-object read depends on the clock only
through the date and the hour. -/
theorem parsePackedStartEventsItem_dateHour (p : Params) (t : Nat)
    {n1 n2 : GoTime} (h : dateHourEq n1 n2) (cur : DecodeCursor) :
    parsePackedStartEventsItem p t n1 cur
      = parsePackedStartEventsItem p t n2 cur := by
  unfold parsePackedStartEventsItem
  cases hA : DecodeCursor.readInfoObjAddr p cur with
  | error e => rfl
  | ok v =>
    obtain ⟨ioa, cur1⟩ := v
    dsimp only
    cases hB : cur1.readByte with
    | error e => rfl
    | ok vb =>
      obtain ⟨event, cur2⟩ := vb
      dsimp only
      cases hB2 : cur2.readByte with
      | error e => rfl
      | ok vb2 =>
        obtain ⟨qdpRaw, cur3⟩ := vb2
        dsimp only
        cases hB3 : cur3.readCP16Time2a with
        | error e => rfl
        | ok vb3 =>
          obtain ⟨msec, cur4⟩ := vb3
          dsimp only
          rw [readCP24_dateHour h cur4]

/-- The packed output-circuit single-object read depends on the clock
only through the date and the hour. -/
theorem parsePackedOutputCircuitItem_dateHour (p : Params) (t : Nat)
    {n1 n2 : GoTime} (h : dateHourEq n1 n2) (cur : DecodeCursor) :
    parsePackedOutputCircuitItem p t n1 cur
      = parsePackedOutputCircuitItem p t n2 cur := by
  unfold parsePackedOutputCircuitItem
  cases hA : DecodeCursor.readInfoObjAddr p cur with
  | error e => rfl
  | ok v =>
    obtain ⟨ioa, cur1⟩ := v
    dsimp only
    cases hB : cur1.readByte with
    | error e => rfl
    | ok vb =>
      obtain ⟨oci, cur2⟩ := vb
      dsimp only
      cases hB2 : cur2.readByte with
      | error e => rfl
      | ok vb2 =>
        obtain ⟨qdpRaw, cur3⟩ := vb2
        dsimp only
        cases hB3 : cur3.readCP16Time2a with
        | error e => rfl
        | ok vb3 =>
          obtain ⟨msec, cur4⟩ := vb3
          dsimp only
          rw [readCP24_dateHour h cur4]

end GoIecp5

namespace GoIecp5

/-- Whenever `parseDispatch` succeeds, the returned message carries exactly
the header it was handed, hence shares the source buffer. -/
theorem parseDispatch_header (a : ASDU) (now : GoTime) (t : Nat)
    (vs : VariableStruct) (header : Header) (cur : DecodeCursor)
    (g : GoMessage) (hg : parseDispatch a now t vs header cur = Except.ok g) :
    g.msg.header = header := by
  unfold parseDispatch at hg
  by_cases g1 : (t == M_SP_NA_1 || t == M_SP_TA_1 || t == M_SP_TB_1) = true
  · rw [if_pos g1] at hg
    repeat' split at hg
    all_goals
      first
        | exact Except.noConfusion hg
        | (injection hg with hg; subst hg; rfl)
  rw [if_neg g1] at hg
  by_cases g2 : (t == M_DP_NA_1 || t == M_DP_TA_1 || t == M_DP_TB_1) = true
  · rw [if_pos g2] at hg
    repeat' split at hg
    all_goals
      first
        | exact Except.noConfusion hg
        | (injection hg with hg; subst hg; rfl)
  rw [if_neg g2] at hg
  by_cases g3 : (t == M_ST_NA_1 || t == M_ST_TA_1 || t == M_ST_TB_1) = true
  · rw [if_pos g3] at hg
    repeat' split at hg
    all_goals
      first
        | exact Except.noConfusion hg
        | (injection hg with hg; subst hg; rfl)
  rw [if_neg g3] at hg
  by_cases g4 : (t == M_BO_NA_1 || t == M_BO_TA_1 || t == M_BO_TB_1) = true
  · rw [if_pos g4] at hg
    repeat' split at hg
    all_goals
      first
        | exact Except.noConfusion hg
        | (injection hg with hg; subst hg; rfl)
  rw [if_neg g4] at hg
  by_cases g5 : (t == M_ME_NA_1 || t == M_ME_TA_1 || t == M_ME_TD_1 || t == M_ME_ND_1) = true
  · rw [if_pos g5] at hg
    repeat' split at hg
    all_goals
      first
        | exact Except.noConfusion hg
        | (injection hg with hg; subst hg; rfl)
  rw [if_neg g5] at hg
  by_cases g6 : (t == M_ME_NB_1 || t == M_ME_TB_1 || t == M_ME_TE_1) = true
  · rw [if_pos g6] at hg
    repeat' split at hg
    all_goals
      first
        | exact Except.noConfusion hg
        | (injection hg with hg; subst hg; rfl)
  rw [if_neg g6] at hg
  by_cases g7 : (t == M_ME_NC_1 || t == M_ME_TC_1 || t == M_ME_TF_1) = true
  · rw [if_pos g7] at hg
    repeat' split at hg
    all_goals
      first
        | exact Except.noConfusion hg
        | (injection hg with hg; subst hg; rfl)
  rw [if_neg g7] at hg
  by_cases g8 : (t == M_IT_NA_1 || t == M_IT_TA_1 || t == M_IT_TB_1) = true
  · rw [if_pos g8] at hg
    repeat' split at hg
    all_goals
      first
        | exact Except.noConfusion hg
        | (injection hg with hg; subst hg; rfl)
  rw [if_neg g8] at hg
  by_cases g9 : (t == M_EP_TA_1 || t == M_EP_TD_1) = true
  · rw [if_pos g9] at hg
    repeat' split at hg
    all_goals
      first
        | exact Except.noConfusion hg
        | (injection hg with hg; subst hg; rfl)
  rw [if_neg g9] at hg
  by_cases g10 : (t == M_EP_TB_1 || t == M_EP_TE_1) = true
  · rw [if_pos g10] at hg
    repeat' split at hg
    all_goals
      first
        | exact Except.noConfusion hg
        | (injection hg with hg; subst hg; rfl)
  rw [if_neg g10] at hg
  by_cases g11 : (t == M_EP_TC_1 || t == M_EP_TF_1) = true
  · rw [if_pos g11] at hg
    repeat' split at hg
    all_goals
      first
        | exact Except.noConfusion hg
        | (injection hg with hg; subst hg; rfl)
  rw [if_neg g11] at hg
  by_cases g12 : (t == M_PS_NA_1) = true
  · rw [if_pos g12] at hg
    repeat' split at hg
    all_goals
      first
        | exact Except.noConfusion hg
        | (injection hg with hg; subst hg; rfl)
  rw [if_neg g12] at hg
  by_cases g13 : (t == M_EI_NA_1) = true
  · rw [if_pos g13] at hg
    repeat' split at hg
    all_goals
      first
        | exact Except.noConfusion hg
        | (injection hg with hg; subst hg; rfl)
  rw [if_neg g13] at hg
  by_cases g14 : (t == C_SC_NA_1 || t == C_SC_TA_1) = true
  · rw [if_pos g14] at hg
    repeat' split at hg
    all_goals
      first
        | exact Except.noConfusion hg
        | (injection hg with hg; subst hg; rfl)
  rw [if_neg g14] at hg
  by_cases g15 : (t == C_DC_NA_1 || t == C_DC_TA_1) = true
  · rw [if_pos g15] at hg
    repeat' split at hg
    all_goals
      first
        | exact Except.noConfusion hg
        | (injection hg with hg; subst hg; rfl)
  rw [if_neg g15] at hg
  by_cases g16 : (t == C_RC_NA_1 || t == C_RC_TA_1) = true
  · rw [if_pos g16] at hg
    repeat' split at hg
    all_goals
      first
        | exact Except.noConfusion hg
        | (injection hg with hg; subst hg; rfl)
  rw [if_neg g16] at hg
  by_cases g17 : (t == C_SE_NA_1 || t == C_SE_TA_1) = true
  · rw [if_pos g17] at hg
    repeat' split at hg
    all_goals
      first
        | exact Except.noConfusion hg
        | (injection hg with hg; subst hg; rfl)
  rw [if_neg g17] at hg
  by_cases g18 : (t == C_SE_NB_1 || t == C_SE_TB_1) = true
  · rw [if_pos g18] at hg
    repeat' split at hg
    all_goals
      first
        | exact Except.noConfusion hg
        | (injection hg with hg; subst hg; rfl)
  rw [if_neg g18] at hg
  by_cases g19 : (t == C_SE_NC_1 || t == C_SE_TC_1) = true
  · rw [if_pos g19] at hg
    repeat' split at hg
    all_goals
      first
        | exact Except.noConfusion hg
        | (injection hg with hg; subst hg; rfl)
  rw [if_neg g19] at hg
  by_cases g20 : (t == C_BO_NA_1 || t == C_BO_TA_1) = true
  · rw [if_pos g20] at hg
    repeat' split at hg
    all_goals
      first
        | exact Except.noConfusion hg
        | (injection hg with hg; subst hg; rfl)
  rw [if_neg g20] at hg
  by_cases g21 : (t == C_IC_NA_1) = true
  · rw [if_pos g21] at hg
    repeat' split at hg
    all_goals
      first
        | exact Except.noConfusion hg
        | (injection hg with hg; subst hg; rfl)
  rw [if_neg g21] at hg
  by_cases g22 : (t == C_CI_NA_1) = true
  · rw [if_pos g22] at hg
    repeat' split at hg
    all_goals
      first
        | exact Except.noConfusion hg
        | (injection hg with hg; subst hg; rfl)
  rw [if_neg g22] at hg
  by_cases g23 : (t == C_RD_NA_1) = true
  · rw [if_pos g23] at hg
    repeat' split at hg
    all_goals
      first
        | exact Except.noConfusion hg
        | (injection hg with hg; subst hg; rfl)
  rw [if_neg g23] at hg
  by_cases g24 : (t == C_CS_NA_1) = true
  · rw [if_pos g24] at hg
    repeat' split at hg
    all_goals
      first
        | exact Except.noConfusion hg
        | (injection hg with hg; subst hg; rfl)
  rw [if_neg g24] at hg
  by_cases g25 : (t == C_TS_NA_1) = true
  · rw [if_pos g25] at hg
    repeat' split at hg
    all_goals
      first
        | exact Except.noConfusion hg
        | (injection hg with hg; subst hg; rfl)
  rw [if_neg g25] at hg
  by_cases g26 : (t == C_RP_NA_1) = true
  · rw [if_pos g26] at hg
    repeat' split at hg
    all_goals
      first
        | exact Except.noConfusion hg
        | (injection hg with hg; subst hg; rfl)
  rw [if_neg g26] at hg
  by_cases g27 : (t == C_CD_NA_1) = true
  · rw [if_pos g27] at hg
    repeat' split at hg
    all_goals
      first
        | exact Except.noConfusion hg
        | (injection hg with hg; subst hg; rfl)
  rw [if_neg g27] at hg
  by_cases g28 : (t == C_TS_TA_1) = true
  · rw [if_pos g28] at hg
    repeat' split at hg
    all_goals
      first
        | exact Except.noConfusion hg
        | (injection hg with hg; subst hg; rfl)
  rw [if_neg g28] at hg
  by_cases g29 : (t == P_ME_NA_1) = true
  · rw [if_pos g29] at hg
    repeat' split at hg
    all_goals
      first
        | exact Except.noConfusion hg
        | (injection hg with hg; subst hg; rfl)
  rw [if_neg g29] at hg
  by_cases g30 : (t == P_ME_NB_1) = true
  · rw [if_pos g30] at hg
    repeat' split at hg
    all_goals
      first
        | exact Except.noConfusion hg
        | (injection hg with hg; subst hg; rfl)
  rw [if_neg g30] at hg
  by_cases g31 : (t == P_ME_NC_1) = true
  · rw [if_pos g31] at hg
    repeat' split at hg
    all_goals
      first
        | exact Except.noConfusion hg
        | (injection hg with hg; subst hg; rfl)
  rw [if_neg g31] at hg
  by_cases g32 : (t == P_AC_NA_1) = true
  · rw [if_pos g32] at hg
    repeat' split at hg
    all_goals
      first
        | exact Except.noConfusion hg
        | (injection hg with hg; subst hg; rfl)
  rw [if_neg g32] at hg
  injection hg with hg
  subst hg
  rfl

/-- C2 counterexample: `ParseASDU` is not idempotent as stated.  The CP24
item decodes read the wall clock, so two calls on the same ASDU value
(here an M_SP_TA_1 single point with CP24 tag) return unequal messages
when the clock crosses an hour boundary between the calls. -/
theorem parseASDU_clock_crossing_not_idempotent :
    ParseASDU ⟨ParamsNarrow, ⟨2, ⟨false, 1⟩, ⟨3, false, false⟩, 0, 1⟩,
        [1, 1, 0, 0, 0]⟩ ⟨2025, 1, 1, 9, 59, 59, 0⟩
      ≠ ParseASDU ⟨ParamsNarrow, ⟨2, ⟨false, 1⟩, ⟨3, false, false⟩, 0, 1⟩,
        [1, 1, 0, 0, 0]⟩ ⟨2025, 1, 1, 10, 0, 0, 0⟩ := by decide

/-- C2 (amended): two `ParseASDU` calls on the same ASDU that observe the
same wall-clock date and hour yield equal messages, and the parse is
non-destructive: every returned message holds the ASDU's
information-object buffer byte-for-byte unchanged. -/
theorem parseASDU_dateHour_stable_nondestructive (a : ASDU) {n1 n2 : GoTime}
    (h : dateHourEq n1 n2) :
    ParseASDU a n1 = ParseASDU a n2 ∧
      ∀ g : GoMessage, ParseASDU a n1 = Except.ok g →
        g.msg.header.rawInfoObj = a.infoObj := by
  constructor
  · unfold ParseASDU parseDispatch
    generalize a.identifier.type = t
    by_cases g1 : (t == M_SP_NA_1 || t == M_SP_TA_1 || t == M_SP_TB_1) = true
    · rw [if_pos g1, if_pos g1, parseSinglePointItems_dateHour _ _ _ h]
    rw [if_neg g1, if_neg g1]
    by_cases g2 : (t == M_DP_NA_1 || t == M_DP_TA_1 || t == M_DP_TB_1) = true
    · rw [if_pos g2, if_pos g2, parseDoublePointItems_dateHour _ _ _ h]
    rw [if_neg g2, if_neg g2]
    by_cases g3 : (t == M_ST_NA_1 || t == M_ST_TA_1 || t == M_ST_TB_1) = true
    · rw [if_pos g3, if_pos g3, parseStepPositionItems_dateHour _ _ _ h]
    rw [if_neg g3, if_neg g3]
    by_cases g4 : (t == M_BO_NA_1 || t == M_BO_TA_1 || t == M_BO_TB_1) = true
    · rw [if_pos g4, if_pos g4, parseBitString32Items_dateHour _ _ _ h]
    rw [if_neg g4, if_neg g4]
    by_cases g5 : (t == M_ME_NA_1 || t == M_ME_TA_1 || t == M_ME_TD_1 || t == M_ME_ND_1) = true
    · rw [if_pos g5, if_pos g5, parseMeasuredValueNormalItems_dateHour _ _ _ h]
    rw [if_neg g5, if_neg g5]
    by_cases g6 : (t == M_ME_NB_1 || t == M_ME_TB_1 || t == M_ME_TE_1) = true
    · rw [if_pos g6, if_pos g6, parseMeasuredValueScaledItems_dateHour _ _ _ h]
    rw [if_neg g6, if_neg g6]
    by_cases g7 : (t == M_ME_NC_1 || t == M_ME_TC_1 || t == M_ME_TF_1) = true
    · rw [if_pos g7, if_pos g7, parseMeasuredValueFloatItems_dateHour _ _ _ h]
    rw [if_neg g7, if_neg g7]
    by_cases g8 : (t == M_IT_NA_1 || t == M_IT_TA_1 || t == M_IT_TB_1) = true
    · rw [if_pos g8, if_pos g8, parseIntegratedTotalsItems_dateHour _ _ _ h]
    rw [if_neg g8, if_neg g8]
    by_cases g9 : (t == M_EP_TA_1 || t == M_EP_TD_1) = true
    · rw [if_pos g9, if_pos g9, parseEventOfProtectionItems_dateHour _ _ _ h]
    rw [if_neg g9, if_neg g9]
    by_cases g10 : (t == M_EP_TB_1 || t == M_EP_TE_1) = true
    · rw [if_pos g10, if_pos g10, parsePackedStartEventsItem_dateHour _ _ h]
    rw [if_neg g10, if_neg g10]
    by_cases g11 : (t == M_EP_TC_1 || t == M_EP_TF_1) = true
    · rw [if_pos g11, if_pos g11, parsePackedOutputCircuitItem_dateHour _ _ h]
    rw [if_neg g11, if_neg g11]
  · intro g hg
    have hg2 : parseDispatch a n1 a.identifier.type a.identifier.variable'
        (headerOf a) ⟨a.infoObj, 0⟩ = Except.ok g := hg
    have hh := parseDispatch_header a n1 a.identifier.type a.identifier.variable'
      (headerOf a) ⟨a.infoObj, 0⟩ g hg2
    rw [hh]
    rfl

/-- The amended C2 property at a concrete input: two clock samples in the
same hour, an M_SP_TA_1 ASDU; both hypotheses discharged by evaluation. -/
theorem parseASDU_dateHour_stable_nondestructive_witness :
    dateHourEq ⟨2025, 1, 1, 10, 0, 0, 0⟩ ⟨2025, 1, 1, 10, 59, 59, 0⟩ ∧
      (ParseASDU ⟨ParamsNarrow, ⟨2, ⟨false, 1⟩, ⟨3, false, false⟩, 0, 1⟩,
          [1, 1, 0, 0, 0]⟩ ⟨2025, 1, 1, 10, 0, 0, 0⟩
        = ParseASDU ⟨ParamsNarrow, ⟨2, ⟨false, 1⟩, ⟨3, false, false⟩, 0, 1⟩,
          [1, 1, 0, 0, 0]⟩ ⟨2025, 1, 1, 10, 59, 59, 0⟩ ∧
        ∀ g : GoMessage,
          ParseASDU ⟨ParamsNarrow, ⟨2, ⟨false, 1⟩, ⟨3, false, false⟩, 0, 1⟩,
            [1, 1, 0, 0, 0]⟩ ⟨2025, 1, 1, 10, 0, 0, 0⟩ = Except.ok g →
          g.msg.header.rawInfoObj = [1, 1, 0, 0, 0]) :=
  ⟨⟨rfl, rfl, rfl, rfl⟩,
   parseASDU_dateHour_stable_nondestructive
     ⟨ParamsNarrow, ⟨2, ⟨false, 1⟩, ⟨3, false, false⟩, 0, 1⟩, [1, 1, 0, 0, 0]⟩
     ⟨rfl, rfl, rfl, rfl⟩⟩

end GoIecp5
